import Mathlib

/-!
Verification development for the Consultant-Assignment Scanning & Matching
repository.  The definitions below are shallow embeddings of the Python source:

* `app/matching.py`  — `MatchingService` (scoring engine and match orchestrator)
* `app/embeddings.py` — `EmbeddingService.cosine_similarity`, text preparation
* `app/scheduler.py` — `ScannerScheduler` (scan cycle runner, adaptive optimizer)

Python floats are modelled as exact numbers (`ℚ` for the rule-based sub-scores,
`ℝ` where a square root is involved); Python `None` becomes `Option`; raised
exceptions become `Except`.  Python's `str.lower` is modelled ASCII-only
(`Char.toLower`), which agrees with CPython on every string used in this file.
-/

namespace CAScan

/-! ## Basic string helpers (Python truthiness, lower, strip, substring) -/

/-- Python truthiness of an optional string: `None` and `""` are falsy. -/
def strTruthy : Option String → Bool
  | none => false
  | some s => !s.isEmpty

/-- Model of `str.lower()` (ASCII case folding). -/
def strLower (s : String) : String :=
  String.mk (s.toList.map Char.toLower)

/-- Model of `str.strip()`: drop leading and trailing whitespace. -/
def strStrip (s : String) : String :=
  String.mk ((((s.toList.dropWhile Char.isWhitespace).reverse).dropWhile
    Char.isWhitespace).reverse)

/-- Python's substring test `needle in hay` on strings (contiguous). -/
def isSubList (needle hay : List Char) : Bool :=
  (List.range (hay.length + 1)).any (fun i => needle.isPrefixOf (hay.drop i))

/-! ## Model of `difflib.SequenceMatcher` (CPython stdlib)

`_calculate_skills_match` decides fuzzy skill matches with
`SequenceMatcher(None, a, b).ratio()`.  For the short strings involved
(`autojunk` only activates above 200 characters) the algorithm is: find the
longest contiguous common block (preferring, on ties, the smallest start index
in `a`, then in `b`), recurse on the pieces to the left and to the right of the
block, and return `2·M / (len a + len b)` where `M` is the total matched
length. -/

/-- Length of the common prefix of two character lists. -/
def commonRunLen : List Char → List Char → Nat
  | a :: as, b :: bs => if a = b then commonRunLen as bs + 1 else 0
  | _, _ => 0

/-- The routine `find_longest_match` over whole lists: the triple `(i, j, k)` of the
longest common contiguous block, ties broken by least `i`, then least `j`
(this is what difflib's scan order produces when no element is junk). -/
def findLongestMatch (a b : List Char) : Nat × Nat × Nat :=
  (List.range a.length).foldl (fun best i =>
    (List.range b.length).foldl (fun best j =>
      let k := commonRunLen (a.drop i) (b.drop j)
      if k > best.2.2 then (i, j, k) else best) best) (0, 0, 0)

/-- Total size of all matching blocks (`get_matching_blocks`), fuelled
recursion on the two flanks of the longest match. -/
def matchingTotal : Nat → List Char → List Char → Nat
  | 0, _, _ => 0
  | fuel + 1, a, b =>
    let m := findLongestMatch a b
    if m.2.2 = 0 then 0
    else m.2.2 + matchingTotal fuel (a.take m.1) (b.take m.2.1) +
      matchingTotal fuel (a.drop (m.1 + m.2.2)) (b.drop (m.2.1 + m.2.2))

/-- The value of `SequenceMatcher(None, a, b).ratio()`:  `2·M / (len a + len b)`
(and `1.0` for two empty strings, per `difflib._calculate_ratio`). -/
def ratioOf (a b : List Char) : ℚ :=
  if a.length + b.length = 0 then 1
  else (2 * (matchingTotal (a.length + b.length + 1) a b) : ℚ) / (a.length + b.length)

/-! ## Data model (`app/models.py`)

Only the fields consumed by the matching engine and by embedding-text
preparation are carried; UUIDs are modelled as `Nat`.  `onsite_mode` is the
string enum `OnsiteMode`; its values are non-empty strings, so its Python
truthiness coincides with `Option.isSome`.  Note that the pydantic models
declare **no** `hourly_rate_max` / `hourly_rate` / `availability_date` fields
(see `generateMatchReason` below). -/

inductive OnsiteMode
  | onsite
  | remote
  | hybrid
deriving DecidableEq, Repr

structure Job where
  job_id : Nat
  job_uid : String := ""
  source : String := ""
  title : String := ""
  description : Option String := none
  skills : List String := []
  role : Option String := none
  seniority : Option String := none
  languages : List String := []
  location_city : Option String := none
  location_country : Option String := none
  onsite_mode : Option OnsiteMode := none
  duration : Option String := none
deriving DecidableEq, Repr

structure Consultant where
  consultant_id : Nat
  name : String := ""
  role : Option String := none
  seniority : Option String := none
  skills : List String := []
  languages : List String := []
  location_city : Option String := none
  location_country : Option String := none
  onsite_mode : Option OnsiteMode := none
  notes : Option String := none
  active : Bool := true
deriving DecidableEq, Repr

/-! ## Scoring engine (`MatchingService._calculate_*`, matching.py) -/

/-- Class constants of `MatchingService`. -/
def WEIGHT_COSINE : ℚ := 45 / 100
def WEIGHT_SKILLS : ℚ := 25 / 100
def WEIGHT_ROLE : ℚ := 15 / 100
def WEIGHT_LANGUAGE : ℚ := 10 / 100
def WEIGHT_GEO : ℚ := 5 / 100

/-- Inner loop of `_calculate_skills_match`: scan the (normalized) consultant
skills in list order; the first one that matches exactly earns `1.0`, the
first one whose similarity ratio exceeds `0.8` earns `0.8`, and the loop
`break`s at whichever of the two fires first. -/
def skillCredit (jobSkill : String) : List String → ℚ
  | [] => 0
  | c :: rest =>
    if jobSkill = c then 1
    else if ratioOf jobSkill.toList c.toList > 8 / 10 then 8 / 10
    else skillCredit jobSkill rest

/-- Translation of `MatchingService._calculate_skills_match`. -/
def calcSkillsMatch (jobSkills consultantSkills : List String) : ℚ :=
  if jobSkills.isEmpty then 1
  else if consultantSkills.isEmpty then 0
  else
    let js := jobSkills.map (fun s => strStrip (strLower s))
    let cs := consultantSkills.map (fun s => strStrip (strLower s))
    let creditSum := (js.map (fun j => skillCredit j cs)).sum
    min 1 (creditSum / js.length)

/-- Keyword buckets of `_calculate_role_match`. -/
def senior_terms : List String := ["senior", "lead", "principal", "architect", "expert"]
def mid_terms : List String := ["mid", "intermediate", "experienced", "regular"]
def junior_terms : List String := ["junior", "entry", "trainee", "intern", "graduate"]

/-- Model of `any(term in s for term in terms)` — substring membership of any keyword. -/
def containsAnyTerm (s : String) (terms : List String) : Bool :=
  terms.any (fun t => isSubList t.toList s.toList)

/-- Translation of `MatchingService._calculate_role_match`. -/
def calcRoleMatch (job : Job) (consultant : Consultant) : ℚ :=
  if strTruthy job.seniority && strTruthy consultant.seniority then
    let job_sen := strLower (job.seniority.getD "")
    let cons_sen := strLower (consultant.seniority.getD "")
    if job_sen = cons_sen then 1
    else
      let job_is_senior := containsAnyTerm job_sen senior_terms
      let job_is_mid := containsAnyTerm job_sen mid_terms
      let job_is_junior := containsAnyTerm job_sen junior_terms
      let cons_is_senior := containsAnyTerm cons_sen senior_terms
      let cons_is_mid := containsAnyTerm cons_sen mid_terms
      let cons_is_junior := containsAnyTerm cons_sen junior_terms
      if (job_is_senior && cons_is_senior) || (job_is_mid && cons_is_mid) ||
          (job_is_junior && cons_is_junior) then 9 / 10
      else if (job_is_senior && cons_is_mid) || (job_is_mid && cons_is_senior) then 6 / 10
      else 3 / 10
  else if strTruthy job.role && strTruthy consultant.role then
    if strLower (job.role.getD "") = strLower (consultant.role.getD "") then 8 / 10
    else 5 / 10
  else 5 / 10

/-- Translation of `MatchingService._calculate_language_match`. -/
def calcLanguageMatch (jobLanguages consultantLanguages : List String) : ℚ :=
  if jobLanguages.isEmpty then 1
  else if consultantLanguages.isEmpty then 0
  else
    let jl := jobLanguages.map (fun l => strStrip (strLower l))
    let cl := consultantLanguages.map (fun l => strStrip (strLower l))
    ((jl.filter (fun lang => cl.contains lang)).length : ℚ) / jl.length

/-- The fixed Swedish metro-area city table of `_calculate_geo_match`. -/
def swedish_regions : List (String × List String) :=
  [("stockholm", ["stockholm", "solna", "sundbyberg", "täby", "nacka", "järfälla"]),
   ("gothenburg", ["gothenburg", "göteborg", "mölndal", "partille", "kungsbacka"]),
   ("malmö", ["malmö", "lund", "helsingborg", "landskrona", "eslöv"]),
   ("uppsala", ["uppsala", "enköping", "knivsta", "östhammar"])]

/-- The region-detection loop of `_calculate_geo_match`: the region variable is
overwritten by each table entry whose city list has a member that is a
substring of the (lowercased) input city, so the **last** hit wins. -/
def regionOf (cityLower : String) : Option String :=
  swedish_regions.foldl (fun acc rc =>
    if rc.2.any (fun city => isSubList city.toList cityLower.toList) then some rc.1
    else acc) none

/-- Fall-through tail of `_calculate_geo_match`: the country comparison and
the plain `base_score` return. -/
def geoCountryScore (job : Job) (consultant : Consultant) (base_score : ℚ) : ℚ :=
  if strTruthy job.location_country && strTruthy consultant.location_country &&
      (strLower (job.location_country.getD "") = strLower (consultant.location_country.getD ""))
    then min 1 (base_score + 1 / 10)
  else base_score

/-- The location-matching tail of `_calculate_geo_match` (everything after the
onsite-mode base has been fixed): exact-city and same-region checks, falling
through to the country check. -/
def geoLocationScore (job : Job) (consultant : Consultant) (base_score : ℚ) : ℚ :=
  if strTruthy job.location_city && strTruthy consultant.location_city then
    let job_city := strLower (job.location_city.getD "")
    let cons_city := strLower (consultant.location_city.getD "")
    if job_city = cons_city then min 1 (base_score + 3 / 10)
    else
      match regionOf job_city, regionOf cons_city with
      | some jr, some cr =>
        if jr = cr then min 1 (base_score + 2 / 10)
        else geoCountryScore job consultant base_score
      | _, _ => geoCountryScore job consultant base_score
  else geoCountryScore job consultant base_score

/-- The `base_score` assignments of `_calculate_geo_match` for two present,
non-remote onsite modes (lines 258-263). -/
def geoModeBase (jm cm : OnsiteMode) : ℚ :=
  if jm = OnsiteMode.hybrid ∧ (cm = OnsiteMode.hybrid ∨ cm = OnsiteMode.onsite) then 7 / 10
  else if jm = cm then 8 / 10
  else 3 / 10

/-- Translation of `MatchingService._calculate_geo_match`.  Note the `remote` branch of the
source `return`s `0.9` immediately: no location bonus is ever added to it. -/
def calcGeoMatch (job : Job) (consultant : Consultant) : ℚ :=
  match job.onsite_mode, consultant.onsite_mode with
  | some jm, some cm =>
    if jm = OnsiteMode.remote ∨ cm = OnsiteMode.remote then 9 / 10
    else geoLocationScore job consultant (geoModeBase jm cm)
  | _, _ => geoLocationScore job consultant (5 / 10)

/-- The Python exceptions that the modelled paths can raise. -/
inductive PyErr
  | attributeError
  | typeError
  | valueError
  | backendFailure
deriving DecidableEq, Repr

/-! ## Similarity utility (`EmbeddingService.cosine_similarity`, embeddings.py)

Vectors are lists of reals; `np.dot` on the (always equal-length) embedding
vectors is the zip-with-multiply sum and `np.linalg.norm` is the square root
of the sum of squares. -/

/-- Model of `np.dot(vec1, vec2)` for equal-length 1-D arrays. -/
def listDot (vec1 vec2 : List ℝ) : ℝ :=
  (List.zipWith (· * ·) vec1 vec2).sum

/-- Sum of squares; `np.linalg.norm v = Real.sqrt (sumSq v)`. -/
def sumSq (v : List ℝ) : ℝ :=
  (v.map (fun x => x ^ 2)).sum

/-- Value of `EmbeddingService.cosine_similarity` on shape-compatible inputs
(on equal-length vectors `listDot` agrees with `np.dot`; all stored embedding
vectors have dimension 1536).  The full translation including the shape check
of `np.dot` is `cosineSimilarityChecked` below. -/
noncomputable def cosineSimilarity (vec1 vec2 : List ℝ) : ℝ :=
  if vec1.isEmpty || vec2.isEmpty then 0
  else
    let dot_product := listDot vec1 vec2
    let norm1 := Real.sqrt (sumSq vec1)
    let norm2 := Real.sqrt (sumSq vec2)
    if norm1 = 0 ∨ norm2 = 0 then 0
    else dot_product / (norm1 * norm2)

/-- Translation of `EmbeddingService.cosine_similarity` including the shape
semantics of `np.dot`: the empty-vector guard runs first (embeddings.py line
150, before any numpy call), and then `np.dot` raises `ValueError` when the
two non-empty 1-D vectors have different lengths; only on equal lengths does
the function return the `cosineSimilarity` value. -/
noncomputable def cosineSimilarityChecked (vec1 vec2 : List ℝ) : Except PyErr ℝ :=
  if vec1.isEmpty || vec2.isEmpty then .ok 0
  else if vec1.length ≠ vec2.length then .error .valueError
  else .ok (cosineSimilarity vec1 vec2)

/-! ## Embedding text preparation (`EmbeddingService.prepare_*_text`) -/

/-- The string value of the `OnsiteMode` enum. -/
def OnsiteMode.toStr : OnsiteMode → String
  | .onsite => "onsite"
  | .remote => "remote"
  | .hybrid => "hybrid"

/-- One optional `parts` entry: emitted only when the field is truthy. -/
def textPart (label : String) (v : Option String) : Option String :=
  match v with
  | some s => if s.isEmpty then none else some (label ++ s)
  | none => none

/-- One optional `parts` entry for a list field (joined with `", "`). -/
def listPart (label : String) (v : List String) : Option String :=
  if v.isEmpty then none else some (label ++ String.intercalate ", " v)

/-- Translation of `EmbeddingService.prepare_job_text`. -/
def prepareJobText (job : Job) : String :=
  String.intercalate "\n" (List.filterMap id
    [textPart "Title: " (some job.title),
     textPart "Role: " job.role,
     textPart "Seniority: " job.seniority,
     textPart "Description: " job.description,
     listPart "Skills: " job.skills,
     listPart "Languages: " job.languages,
     textPart "City: " job.location_city,
     textPart "Country: " job.location_country,
     textPart "Work mode: " (job.onsite_mode.map OnsiteMode.toStr),
     textPart "Duration: " job.duration])

/-- Translation of `EmbeddingService.prepare_consultant_text` (notes truncated to 2000 chars). -/
def prepareConsultantText (consultant : Consultant) : String :=
  String.intercalate "\n" (List.filterMap id
    [textPart "Name: " (some consultant.name),
     textPart "Role: " consultant.role,
     textPart "Seniority: " consultant.seniority,
     listPart "Skills: " consultant.skills,
     listPart "Languages: " consultant.languages,
     textPart "City: " consultant.location_city,
     textPart "Country: " consultant.location_country,
     textPart "Work mode: " (consultant.onsite_mode.map OnsiteMode.toStr),
     textPart "Notes: " (consultant.notes.map (fun s => String.mk (s.toList.take 2000)))])

/-! ## Scoring (`MatchingService._calculate_match_scores`) -/

/-- The score breakdown dict returned by `_calculate_match_scores`. -/
structure MatchScores where
  total : ℝ
  cosine : ℝ
  skills : ℚ
  role : ℚ
  language : ℚ
  geo : ℚ

/-- Translation of `MatchingService._calculate_match_scores`. -/
noncomputable def calcMatchScores (job : Job) (consultant : Consultant)
    (job_embedding consultant_embedding : List ℝ) : MatchScores :=
  let cosine_score := cosineSimilarity job_embedding consultant_embedding
  let skills_score := calcSkillsMatch job.skills consultant.skills
  let role_score := calcRoleMatch job consultant
  let language_score := calcLanguageMatch job.languages consultant.languages
  let geo_score := calcGeoMatch job consultant
  { total := (WEIGHT_COSINE : ℝ) * cosine_score + (WEIGHT_SKILLS : ℝ) * skills_score +
      (WEIGHT_ROLE : ℝ) * role_score + (WEIGHT_LANGUAGE : ℝ) * language_score +
      (WEIGHT_GEO : ℝ) * geo_score
    cosine := cosine_score
    skills := skills_score
    role := role_score
    language := language_score
    geo := geo_score }

/-! ## Match orchestrator (`MatchingService.run_matching`, matching.py)

The persistence and embedding collaborators (spec §6) are an explicit
environment of pure functions; raised exceptions are `Except.error`; database
mutations are collected as a `DbWrite` trace, accumulated up to the point a
call raises. -/

structure DbEnv where
  getJob : Nat → Option Job
  getConsultant : Nat → Option Consultant
  /-- Result of `get_jobs(limit=100)` -/
  recentJobs : List Job
  /-- Result of `get_consultants(active_only=True, limit=100)` -/
  activeConsultants : List Consultant
  getJobEmbedding : Nat → Option (List ℝ)
  getConsultantEmbedding : Nat → Option (List ℝ)
  /-- Behaviour of `EmbeddingService.create_embedding`: the OpenAI backend re-raises API
  errors (embeddings.py line 40), so the call is fallible. -/
  createEmbedding : String → Except PyErr (List ℝ)

inductive DbWrite
  | storeJobEmbedding (job_id : Nat) (embedding : List ℝ)
  | storeConsultantEmbedding (consultant_id : Nat) (embedding : List ℝ)
  /-- Write of `db.upsert_match`; the `reason_json` payload is omitted because
  `_generate_match_reason` never returns normally (see below). -/
  | upsertMatch (job_id consultant_id : Nat) (score : ℝ)

/-- The row returned by `db.upsert_match`. -/
structure MatchRow where
  job_id : Nat
  consultant_id : Nat
  score : ℝ

/-- Lines 71-76 of `_match_job_to_consultants`: fetch the job embedding, creating
and storing it when the stored one is `None` or `[]` (`if not job_embedding:`). -/
def getOrCreateJobEmbedding (env : DbEnv) (job : Job) :
    List DbWrite × Except PyErr (List ℝ) :=
  match env.getJobEmbedding job.job_id with
  | some (x :: xs) => ([], .ok (x :: xs))
  | _ =>
    match env.createEmbedding (prepareJobText job) with
    | .error e => ([], .error e)
    | .ok emb => ([DbWrite.storeJobEmbedding job.job_id emb], .ok emb)

/-- Lines 82-87 of `_match_job_to_consultants`, per consultant. -/
def getOrCreateConsultantEmbedding (env : DbEnv) (consultant : Consultant) :
    List DbWrite × Except PyErr (List ℝ) :=
  match env.getConsultantEmbedding consultant.consultant_id with
  | some (x :: xs) => ([], .ok (x :: xs))
  | _ =>
    match env.createEmbedding (prepareConsultantText consultant) with
    | .error e => ([], .error e)
    | .ok emb => ([DbWrite.storeConsultantEmbedding consultant.consultant_id emb], .ok emb)

/-- Translation of `MatchingService._generate_match_reason`.  Its lines
312-342 only bind local values, without observable effects; line 343 then
evaluates `job.hourly_rate_max` — but the pydantic `Job` model (models.py)
declares no such field (nor does `Consultant` declare the `hourly_rate` and
`availability_date` fields read at lines 343 and 375), so attribute access
raises `AttributeError` on every call.  The function never returns normally
and is modelled by its unconditional failure. -/
def generateMatchReason (_job : Job) (_consultant : Consultant)
    (_scores : MatchScores) : Except PyErr Unit :=
  .error .attributeError

/-- The consultant loop of `_match_job_to_consultants` (lines 80-94): score
each consultant, and for those at or above `min_score` compute the match
reason (which raises, aborting the whole call) before collecting the pair. -/
noncomputable def scoreConsultants (env : DbEnv) (job : Job) (job_embedding : List ℝ)
    (min_score : ℝ) : List Consultant →
    List DbWrite × Except PyErr (List (Consultant × MatchScores))
  | [] => ([], .ok [])
  | consultant :: rest =>
    match getOrCreateConsultantEmbedding env consultant with
    | (w, .error e) => (w, .error e)
    | (w, .ok consultant_embedding) =>
      let scores := calcMatchScores job consultant job_embedding consultant_embedding
      if scores.total ≥ min_score then
        match generateMatchReason job consultant scores with
        | .error e => (w, .error e)
        | .ok _ =>
          match scoreConsultants env job job_embedding min_score rest with
          | (w', res) => (w ++ w', res.map (fun l => (consultant, scores) :: l))
      else
        match scoreConsultants env job job_embedding min_score rest with
        | (w', res) => (w ++ w', res)

/-- Model of the stable descending sort by total score
(`sort(key=..., reverse=True)`): insertion keeping earlier elements first on
ties. -/
noncomputable def insertByTotalDesc (x : Consultant × MatchScores) :
    List (Consultant × MatchScores) → List (Consultant × MatchScores)
  | [] => [x]
  | y :: ys => if y.2.total > x.2.total then y :: insertByTotalDesc x ys else x :: y :: ys

noncomputable def sortByTotalDesc :
    List (Consultant × MatchScores) → List (Consultant × MatchScores)
  | [] => []
  | x :: xs => insertByTotalDesc x (sortByTotalDesc xs)

/-- Translation of `MatchingService._match_job_to_consultants`. -/
noncomputable def matchJobToConsultants (env : DbEnv) (job : Job)
    (consultants : List Consultant) (min_score : ℝ) (max_results : Nat) :
    List DbWrite × Except PyErr (List MatchRow) :=
  match getOrCreateJobEmbedding env job with
  | (w0, .error e) => (w0, .error e)
  | (w0, .ok job_embedding) =>
    match scoreConsultants env job job_embedding min_score consultants with
    | (w1, .error e) => (w0 ++ w1, .error e)
    | (w1, .ok scored_matches) =>
      let top_matches := (sortByTotalDesc scored_matches).take max_results
      let matchRows := top_matches.map (fun cs =>
        MatchRow.mk job.job_id cs.1.consultant_id cs.2.total)
      (w0 ++ w1 ++ matchRows.map (fun m => DbWrite.upsertMatch m.job_id m.consultant_id m.score),
        .ok matchRows)

/-- The job loop of `run_matching` (lines 53-57).  There is no `try/except`
around the per-job call: an exception aborts the loop, keeping the writes
performed so far. -/
noncomputable def processJobs (env : DbEnv) (consultants : List Consultant)
    (min_score : ℝ) (max_results : Nat) :
    List Job → List DbWrite × Except PyErr (List MatchRow)
  | [] => ([], .ok [])
  | job :: rest =>
    match matchJobToConsultants env job consultants min_score max_results with
    | (w, .error e) => (w, .error e)
    | (w, .ok job_matches) =>
      match processJobs env consultants min_score max_results rest with
      | (w', res) => (w ++ w', res.map (fun l => job_matches ++ l))

/-- Translation of `MatchingService.run_matching` (defaults: `min_score=0.5`,
`max_results=10`).  `if job_ids:` is Python truthiness: both `None` and `[]`
select the recent-jobs default; resolved IDs are kept, unresolvable ones
dropped by the `[j for j in jobs if j]` filter. -/
noncomputable def runMatching (env : DbEnv) (job_ids : Option (List Nat))
    (consultant_ids : Option (List Nat)) (min_score : ℝ) (max_results : Nat) :
    List DbWrite × Except PyErr (List MatchRow) :=
  let jobs := match job_ids with
    | some (i :: is) => (((i :: is).map env.getJob).filterMap id)
    | _ => env.recentJobs
  let consultants := match consultant_ids with
    | some (i :: is) => (((i :: is).map env.getConsultant).filterMap id)
    | _ => env.activeConsultants
  processJobs env consultants min_score max_results jobs

/-! ## Scan cycle runner (`ScannerScheduler`, scheduler.py)

Scraper results and the override query are external collaborators (spec §6)
and enter through an environment; the sources are iterated in the registration
order of `self.enabled_sources`. -/

/-- Rows of `SourceConfigOverride` as used by `_scan_with_config` (the
`parameter_overrides` payload only feeds scraper parameters and is omitted). -/
structure SourceOverride where
  source_name : String
  is_enabled : Bool
deriving DecidableEq, Repr

structure SchedulerEnv where
  /-- Keys of `self.enabled_sources`, in registration order. -/
  enabledSources : List String
  /-- Outcome of `scraper.scrape()` for a (config, source) pair; entering the
  scraper context and scraping may raise. -/
  scrape : Nat → String → Except PyErr (List Job)
  /-- Outcome of `db.get_source_config_overrides(config_id)`. -/
  getSourceOverrides : Nat → Except PyErr (List SourceOverride)

/-- Lookup in the override dict that `_scan_with_config` builds keyed by
source name: a Python dict comprehension keeps the **last** row for a
duplicated key. -/
def lastOverrideFor (overrides : List SourceOverride) (name : String) :
    Option SourceOverride :=
  overrides.foldl (fun acc o => if o.source_name = name then some o else acc) none

/-- The method names defined on class `MatchingService` (matching.py). -/
def matchingServiceMethods : List String :=
  ["__init__", "run_matching", "_match_job_to_consultants", "_calculate_match_scores",
   "_calculate_skills_match", "_calculate_role_match", "_calculate_language_match",
   "_calculate_geo_match", "_generate_match_reason"]

/-- scheduler.py line 297 calls `self.matching_service.find_matches_for_job(...)`.
Python attribute lookup raises `AttributeError` because `MatchingService`
defines no such method (see `matchingServiceMethods`); the `.ok` branch below
is unreachable. -/
def findMatchesForJobCall (_job_id : Nat) : Except PyErr (List MatchRow) :=
  if "find_matches_for_job" ∈ matchingServiceMethods then .ok []
  else .error .attributeError

/-- Translation of `ScannerScheduler._generate_matches_for_jobs`: per-job `try/except` that
logs and continues on failure. -/
def generateMatchesForJobs (jobs : List Job) : List MatchRow :=
  jobs.foldl (fun all_matches job =>
    match findMatchesForJobCall job.job_id with
    | .ok ms => all_matches ++ ms
    | .error _ => all_matches) []

/-- One iteration of the source loop of `_scan_with_config` (lines 205-240):
skip a disabled source; run the scraper inside `try/except` (failure logs and
`continue`s); store the postings (`upsert_jobs` returns them) and generate
matches for the newly stored ones. -/
def scanSourceStep (env : SchedulerEnv) (config_id : Nat)
    (overrides : List SourceOverride) (acc : Nat × Nat) (source_name : String) :
    Nat × Nat :=
  let skip := match lastOverrideFor overrides source_name with
    | some o => !o.is_enabled
    | none => false
  if skip then acc
  else
    match env.scrape config_id source_name with
    | .error _ => acc
    | .ok jobs =>
      let jobs_found := acc.1 + jobs.length
      if jobs.isEmpty then (jobs_found, acc.2)
      else
        let stored_jobs := jobs
        let new_matches := generateMatchesForJobs stored_jobs
        (jobs_found, acc.2 + new_matches.length)

/-- Translation of `ScannerScheduler._scan_with_config`: returns `(jobs_found,
matches_generated)`.  The override fetch happens before the source loop, so
only it can make the whole call raise. -/
def scanWithConfig (env : SchedulerEnv) (config_id : Nat) :
    Except PyErr (Nat × Nat) :=
  match env.getSourceOverrides config_id with
  | .error e => .error e
  | .ok overrides =>
    .ok (env.enabledSources.foldl (scanSourceStep env config_id overrides) (0, 0))

/-- The `performance_log` dict written by `_log_config_performance`
(the `test_date` field is omitted). -/
structure PerformanceLogEntry where
  config_id : Nat
  jobs_found : Nat
  matches_generated : Nat
  quality_score : ℚ
deriving DecidableEq, Repr

/-- Translation of `ScannerScheduler._log_config_performance`. -/
def logConfigPerformance (config_id jobs_found matches_generated : Nat) :
    PerformanceLogEntry :=
  { config_id := config_id
    jobs_found := jobs_found
    matches_generated := matches_generated
    quality_score :=
      if jobs_found > 0 then (matches_generated : ℚ) / (max jobs_found 1) else 0 }

/-- The configuration loop of `ScannerScheduler.run_daily_scan` (lines
161-181): each configuration is scanned inside its own `try/except`
(failures log and `continue`); a successful scan adds to the running totals
and writes exactly one `PerformanceLogEntry`.  Returns the written entries
and `(total_jobs_found, total_matches_generated)`.  (The
consultant-summary merge only alters scraper parameters and is omitted.) -/
def dailyScanStep (env : SchedulerEnv) (acc : List PerformanceLogEntry × Nat × Nat)
    (config_id : Nat) : List PerformanceLogEntry × Nat × Nat :=
  match scanWithConfig env config_id with
  | .error _ => acc
  | .ok (jobs_found, matches_generated) =>
    (acc.1 ++ [logConfigPerformance config_id jobs_found matches_generated],
      acc.2.1 + jobs_found, acc.2.2 + matches_generated)

/-- The configuration loop of `run_daily_scan` (scheduler.py lines 161-181)
in isolation.  In the current code this loop is unreachable whenever there is
at least one active configuration: see `runDailyScan` below. -/
def scanConfigsLoop (env : SchedulerEnv) (active_configs : List Nat) :
    List PerformanceLogEntry × Nat × Nat :=
  active_configs.foldl (dailyScanStep env) ([], 0, 0)

/-- The method names defined on class `DatabaseRepository` (repo.py). -/
def databaseRepositoryMethods : List String :=
  ["__init__", "init", "close", "upsert_company", "get_company_by_name",
   "upsert_broker", "get_broker_by_name", "upsert_job", "get_job", "get_jobs",
   "upsert_consultant", "get_consultant", "get_consultants",
   "store_job_embedding", "store_consultant_embedding", "get_job_embedding",
   "get_consultant_embedding", "upsert_match", "get_matches_for_job",
   "add_skill_alias", "add_role_alias", "get_canonical_skill",
   "get_canonical_role", "create_ingestion_log", "update_ingestion_log",
   "_row_to_job", "_row_to_consultant", "_row_to_match",
   "get_or_create_company", "get_or_create_broker", "log_ingestion",
   "get_recent_ingestion_logs", "create_user", "get_user_by_username",
   "get_user_by_id", "update_user", "delete_user", "get_all_users",
   "update_last_login", "update_user_password", "update_user_active_status",
   "log_user_action", "get_active_scanning_configs",
   "get_all_scanning_configs", "get_scanning_config",
   "get_scanning_config_by_name", "create_scanning_config",
   "get_source_config_overrides", "get_source_override",
   "upsert_source_override", "ensure_manual_scanning_config",
   "update_manual_scanning_config", "log_config_performance",
   "update_source_performance", "get_config_performance_history",
   "update_config_performance_score", "upsert_learning_parameter",
   "upsert_jobs"]

/-- scheduler.py:157 calls `self.db_repo.summarize_active_consultants()`.
Python attribute lookup raises `AttributeError` because `DatabaseRepository`
defines no such method (see `databaseRepositoryMethods`); the `.ok` branch
below is unreachable. -/
def summarizeActiveConsultantsCall : Except PyErr Unit :=
  if "summarize_active_consultants" ∈ databaseRepositoryMethods then .ok ()
  else .error .attributeError

/-- Translation of `ScannerScheduler.run_daily_scan`: with no active
configurations it returns early (no log entries); otherwise it calls
`summarize_active_consultants` on the repository **before** the configuration
loop, and the outer `except` handler (scheduler.py lines 188-190) logs and
re-raises whatever that call raises, so the loop never runs. -/
def runDailyScan (env : SchedulerEnv) (active_configs : List Nat) :
    Except PyErr (List PerformanceLogEntry × Nat × Nat) :=
  if active_configs.isEmpty then .ok ([], 0, 0)
  else
    match summarizeActiveConsultantsCall with
    | .error e => .error e
    | .ok _ => .ok (scanConfigsLoop env active_configs)

/-! ## Adaptive optimizer (`_optimize_single_config`, scheduler.py) -/

/-- The configuration fields read by the optimizer. -/
structure OptimizerConfig where
  config_id : Nat
  target_skills : List String := []
  target_roles : List String := []
  target_locations : List String := []
deriving DecidableEq, Repr

/-- A `PerformanceLogEntry` row as read back by the optimizer
(`quality_score` may be NULL, hence `p['quality_score'] or 0`). -/
structure PerformanceRow where
  quality_score : Option ℚ
deriving DecidableEq, Repr

inductive OptimizerWrite
  | updatePerformanceScore (config_id : Nat) (score : ℚ)
  | upsertLearningParameter (parameter_name parameter_value : String)
      (effectiveness_score : ℚ) (config_id : Nat)
deriving DecidableEq, Repr

/-- Python's `max(...)` over the generator
`(p['quality_score'] or 0 for p in best_performers)` (nonempty). -/
def bestQuality (best_performers : List PerformanceRow) : ℚ :=
  match best_performers.map (fun p => p.quality_score.getD 0) with
  | [] => 0
  | q :: qs => qs.foldl max q

/-- The parameter names of `DatabaseRepository.upsert_learning_parameter`
(repo.py:1264): `(self, param_name, param_value, effectiveness_score=0.0,
config_id=None)`. -/
def upsertLearningParameterParams : List String :=
  ["self", "param_name", "param_value", "effectiveness_score", "config_id"]

/-- The call at scheduler.py lines 426-431 passes the keyword arguments
`parameter_name`, `parameter_value`, `effectiveness_score` and
`learned_from_config_id`.  Python binds keywords at call time: a keyword that
is not a parameter name of the callee raises `TypeError` before anything
runs, so the write in the `.ok` branch below never happens (three of the four
keywords do not match repo.py:1264). -/
def upsertLearningParameterCall (parameter_name parameter_value : String)
    (effectiveness_score : ℚ) (learned_from_config_id : Nat) :
    Except PyErr OptimizerWrite :=
  if "parameter_name" ∈ upsertLearningParameterParams ∧
      "parameter_value" ∈ upsertLearningParameterParams ∧
      "effectiveness_score" ∈ upsertLearningParameterParams ∧
      "learned_from_config_id" ∈ upsertLearningParameterParams then
    .ok (OptimizerWrite.upsertLearningParameter parameter_name parameter_value
      effectiveness_score learned_from_config_id)
  else .error .typeError

/-- The inner `for value in param_values` loop of
`_extract_learning_parameters`: each iteration awaits the upsert call, and an
exception aborts the remaining iterations.  Returns the writes performed up
to the failure. -/
def promoteValues (effectiveness_score : ℚ) (config_id : Nat)
    (param_name : String) : List String → List OptimizerWrite × Except PyErr Unit
  | [] => ([], .ok ())
  | value :: rest =>
    match upsertLearningParameterCall param_name value effectiveness_score config_id with
    | .error e => ([], .error e)
    | .ok w =>
      match promoteValues effectiveness_score config_id param_name rest with
      | (ws, r) => (w :: ws, r)

/-- The outer `for param_name in [...]` loop of
`_extract_learning_parameters`. -/
def promoteParams (effectiveness_score : ℚ) (config_id : Nat) :
    List (String × List String) → List OptimizerWrite × Except PyErr Unit
  | [] => ([], .ok ())
  | (param_name, param_values) :: rest =>
    match promoteValues effectiveness_score config_id param_name param_values with
    | (ws, .error e) => (ws, .error e)
    | (ws, .ok _) =>
      match promoteParams effectiveness_score config_id rest with
      | (ws', r) => (ws ++ ws', r)

/-- Translation of `ScannerScheduler._extract_learning_parameters`: returns
the learning-parameter writes actually performed together with the outcome
(the first upsert call raises `TypeError`, see
`upsertLearningParameterCall`). -/
def extractLearningParameters (config : OptimizerConfig)
    (performance_data : List PerformanceRow) :
    List OptimizerWrite × Except PyErr Unit :=
  let best_performers := performance_data.filter (fun p => p.quality_score.getD 0 > 7 / 10)
  if best_performers.isEmpty then ([], .ok ())
  else
    promoteParams (bestQuality best_performers) config.config_id
      [("target_skills", config.target_skills), ("target_roles", config.target_roles),
       ("target_locations", config.target_locations)]

/-- Translation of `ScannerScheduler._optimize_single_config` given the trailing 30-day
window rows (`db.get_config_performance_history(config_id, days=30)`): skip
when empty, otherwise write back the mean quality score and then attempt the
learned-parameter extraction — whose exception the surrounding `try/except`
(scheduler.py lines 385, 408-409) swallows, keeping only the writes that
happened before it. -/
def optimizeSingleConfig (config : OptimizerConfig)
    (performance_data : List PerformanceRow) : List OptimizerWrite :=
  if performance_data.isEmpty then []
  else
    let avg_quality_score :=
      ((performance_data.map (fun p => p.quality_score.getD 0)).sum) / performance_data.length
    OptimizerWrite.updatePerformanceScore config.config_id avg_quality_score ::
      (extractLearningParameters config performance_data).1

/-! ## Spec-level reformulations

Declarative restatements of what the spec describes, used to compare the code
translation against the specification's wording (and, for the corrected
claims, against their amended wording). -/

/-- Spec wording: "exact city match" (both cities present, equal after
lowercasing). -/
def exactCityMatch (job : Job) (consultant : Consultant) : Bool :=
  strTruthy job.location_city && strTruthy consultant.location_city &&
    (strLower (job.location_city.getD "") = strLower (consultant.location_city.getD ""))

/-- Spec wording: "both cities fall in the same predefined regional cluster". -/
def sameRegionMatch (job : Job) (consultant : Consultant) : Bool :=
  strTruthy job.location_city && strTruthy consultant.location_city &&
    (match regionOf (strLower (job.location_city.getD "")),
        regionOf (strLower (consultant.location_city.getD "")) with
     | some jr, some cr => jr = cr
     | _, _ => false)

/-- Spec wording: "same country" (both countries present, equal after
lowercasing). -/
def sameCountryMatch (job : Job) (consultant : Consultant) : Bool :=
  strTruthy job.location_country && strTruthy consultant.location_country &&
    (strLower (job.location_country.getD "") = strLower (consultant.location_country.getD ""))

/-- Spec wording: the location bonus — `+0.3` exact city, else `+0.2` same
regional cluster, else `+0.1` same country, else nothing. -/
def geoBonus (job : Job) (consultant : Consultant) : ℚ :=
  if exactCityMatch job consultant then 3 / 10
  else if sameRegionMatch job consultant then 2 / 10
  else if sameCountryMatch job consultant then 1 / 10
  else 0

/-- Amended-spec wording for the per-skill credit: the **first** consultant
skill in list order that matches exactly or fuzzily decides the credit —
`1.0` when that first match is exact, `0.8` when it is fuzzy. -/
def specSkillCredit (jobSkill : String) (consultantSkills : List String) : ℚ :=
  match consultantSkills.find? (fun c =>
      (jobSkill = c : Bool) || decide (ratioOf jobSkill.toList c.toList > 8 / 10)) with
  | none => 0
  | some c => if jobSkill = c then 1 else 8 / 10

/-- The job set `run_matching` operates on: explicitly listed IDs resolve via
`get_job` with unresolvable ones silently dropped; `None` and `[]` (both falsy)
select the recent-jobs default. -/
def resolvedJobs (env : DbEnv) (job_ids : Option (List Nat)) : List Job :=
  match job_ids with
  | some (i :: is) => (((i :: is).map env.getJob).filterMap id)
  | _ => env.recentJobs

/-- The consultant set `run_matching` operates on (same dropping rule). -/
def resolvedConsultants (env : DbEnv) (consultant_ids : Option (List Nat)) :
    List Consultant :=
  match consultant_ids with
  | some (i :: is) => (((i :: is).map env.getConsultant).filterMap id)
  | _ => env.activeConsultants

/-- Spec wording for one source of a scan cycle: a disabled or failing source
contributes `(0, 0)`; a successful source contributes its posting count and
the number of matches generated for the stored postings. -/
def sourceContribution (env : SchedulerEnv) (config_id : Nat)
    (overrides : List SourceOverride) (source_name : String) : Nat × Nat :=
  if (match lastOverrideFor overrides source_name with
      | some o => !o.is_enabled
      | none => false) then (0, 0)
  else
    match env.scrape config_id source_name with
    | .error _ => (0, 0)
    | .ok jobs => (jobs.length, (generateMatchesForJobs jobs).length)

/-- Spec wording for one configuration of a scan cycle: no log entry when the
configuration's scan raises (its override fetch fails), otherwise exactly one
entry aggregating the per-source contributions. -/
def perfEntrySpec (env : SchedulerEnv) (config_id : Nat) :
    Option PerformanceLogEntry :=
  match env.getSourceOverrides config_id with
  | .error _ => none
  | .ok overrides =>
    some (logConfigPerformance config_id
      ((env.enabledSources.map (fun s => (sourceContribution env config_id overrides s).1)).sum)
      ((env.enabledSources.map (fun s => (sourceContribution env config_id overrides s).2)).sum))

/-! ## Concrete example inputs for the closed theorems below -/

/-- A job requiring a skill and a language, with an `onsite` mode. -/
def jScore : Job :=
  { job_id := 1, skills := ["python"], languages := ["swedish"],
    onsite_mode := some OnsiteMode.onsite }

/-- A consultant with no skills or languages and a `hybrid` mode. -/
def cScore : Consultant :=
  { consultant_id := 2, onsite_mode := some OnsiteMode.hybrid }

/-- A fully-remote job located in Stockholm, Sweden. -/
def jRemote : Job :=
  { job_id := 3, onsite_mode := some OnsiteMode.remote,
    location_city := some "Stockholm", location_country := some "Sweden" }

/-- A fully-remote consultant located in Stockholm, Sweden. -/
def cRemote : Consultant :=
  { consultant_id := 4, onsite_mode := some OnsiteMode.remote,
    location_city := some "Stockholm", location_country := some "Sweden" }

/-- Geo-monotonicity witnesses: four job/consultant pairs sharing the
`onsite`/`onsite` mode base, with decreasing location agreement. -/
def jGeo1 : Job :=
  { job_id := 31, onsite_mode := some OnsiteMode.onsite, location_city := some "Stockholm" }
def cGeo1 : Consultant :=
  { consultant_id := 41, onsite_mode := some OnsiteMode.onsite, location_city := some "Stockholm" }
def jGeo2 : Job :=
  { job_id := 32, onsite_mode := some OnsiteMode.onsite, location_city := some "Solna" }
def cGeo2 : Consultant :=
  { consultant_id := 42, onsite_mode := some OnsiteMode.onsite, location_city := some "Stockholm" }
def jGeo3 : Job :=
  { job_id := 33, onsite_mode := some OnsiteMode.onsite, location_city := some "Lund",
    location_country := some "Sweden" }
def cGeo3 : Consultant :=
  { consultant_id := 43, onsite_mode := some OnsiteMode.onsite, location_city := some "Kiruna",
    location_country := some "Sweden" }
def jGeo4 : Job :=
  { job_id := 34, onsite_mode := some OnsiteMode.onsite, location_country := some "Sweden" }
def cGeo4 : Consultant :=
  { consultant_id := 44, onsite_mode := some OnsiteMode.onsite, location_country := some "Norway" }

/-- A job whose embedding is already stored in `envMatch`. -/
def jGood : Job := { job_id := 10 }

/-- A job with no stored embedding: matching it must call the (failing)
embedding backend of `envMatch`. -/
def jBad : Job := { job_id := 11 }

/-- The only consultant stored in `envMatch`. -/
def cOne : Consultant := { consultant_id := 20 }

/-- A concrete orchestrator environment: jobs 10 and 11 and consultant 20
resolve (nothing else does); embeddings are stored for job 10 and consultant
20 only; the embedding backend raises on every call. -/
noncomputable def envMatch : DbEnv :=
  { getJob := fun i => if i = 10 then some jGood else if i = 11 then some jBad else none
    getConsultant := fun i => if i = 20 then some cOne else none
    recentJobs := []
    activeConsultants := []
    getJobEmbedding := fun i => if i = 10 then some [1] else none
    getConsultantEmbedding := fun i => if i = 20 then some [1] else none
    createEmbedding := fun _ => .error .backendFailure }

/-- A concrete scheduler environment: three registered sources; the second
raises; config 0's override query succeeds (source `c` disabled), config 1's
raises. -/
def envSched : SchedulerEnv :=
  { enabledSources := ["a", "b", "c"]
    scrape := fun _ name =>
      if name = "a" then .ok [jGood, jBad]
      else if name = "b" then .error .backendFailure
      else .ok [jScore]
    getSourceOverrides := fun cfg =>
      if cfg = 0 then .ok [{ source_name := "c", is_enabled := false }]
      else .error .backendFailure }

/-- A concrete optimizer configuration. -/
def optCfg : OptimizerConfig :=
  { config_id := 7, target_skills := ["python", "aws"], target_roles := ["developer"],
    target_locations := ["stockholm"] }

/-- A concrete trailing window: qualities 0.8, NULL, 0.6. -/
def optRows : List PerformanceRow :=
  [{ quality_score := some (8 / 10) }, { quality_score := none },
   { quality_score := some (6 / 10) }]

/-! ## Helper lemmas: geo score characterization -/

theorem geoCountryScore_eq (job : Job) (consultant : Consultant) (b : ℚ) :
    geoCountryScore job consultant b =
      if sameCountryMatch job consultant then min 1 (b + 1 / 10) else b := by
  unfold geoCountryScore sameCountryMatch
  rfl

theorem geoLocationScore_eq (job : Job) (consultant : Consultant) (b : ℚ) (hb : b ≤ 1) :
    geoLocationScore job consultant b = min 1 (b + geoBonus job consultant) := by
  have hmin : min 1 (b + 0) = b := by
    rw [add_zero]
    exact min_eq_right hb
  unfold geoLocationScore geoBonus exactCityMatch sameRegionMatch
  by_cases hc : (strTruthy job.location_city && strTruthy consultant.location_city) = true
  · simp only [hc, Bool.true_and, if_true]
    by_cases hq : strLower (job.location_city.getD "") = strLower (consultant.location_city.getD "")
    · simp [hq]
    · simp only [hq, if_false, decide_eq_true_eq]
      rcases hr1 : regionOf (strLower (job.location_city.getD "")) with _ | jr <;>
        rcases hr2 : regionOf (strLower (consultant.location_city.getD "")) with _ | cr <;>
          simp only [hr1, hr2, geoCountryScore_eq]
      · split <;> simp [hmin, hb]
      · split <;> simp [hmin, hb]
      · split <;> simp [hmin, hb]
      · by_cases hrr : jr = cr
        · simp [hrr]
        · simp only [hrr, if_false, decide_eq_true_eq, geoCountryScore_eq]
          split <;> simp [hmin, hb]
  · rw [Bool.not_eq_true] at hc
    simp only [hc, Bool.false_eq_true, if_false, decide_eq_true_eq, geoCountryScore_eq]
    split <;> simp [hmin, hb]

theorem geoModeBase_nonneg (jm cm : OnsiteMode) : 0 ≤ geoModeBase jm cm := by
  unfold geoModeBase
  split_ifs <;> norm_num

theorem geoModeBase_le_one (jm cm : OnsiteMode) : geoModeBase jm cm ≤ 1 := by
  unfold geoModeBase
  split_ifs <;> norm_num

theorem geoBonus_nonneg (job : Job) (consultant : Consultant) : 0 ≤ geoBonus job consultant := by
  unfold geoBonus
  split_ifs <;> norm_num

/-- Full characterization of `_calculate_geo_match`: `0.9` flat when either
present mode is remote (no bonus), otherwise the mode base (`0.5` when a mode
is missing) plus the location bonus, capped at `1`. -/
theorem calcGeoMatch_eq (job : Job) (consultant : Consultant) :
    calcGeoMatch job consultant =
      match job.onsite_mode, consultant.onsite_mode with
      | some jm, some cm =>
        if jm = OnsiteMode.remote ∨ cm = OnsiteMode.remote then 9 / 10
        else min 1 (geoModeBase jm cm + geoBonus job consultant)
      | _, _ => min 1 (1 / 2 + geoBonus job consultant) := by
  rcases hjm : job.onsite_mode with _ | jm <;> rcases hcm : consultant.onsite_mode with _ | cm <;>
    simp only [calcGeoMatch, hjm, hcm]
  · rw [geoLocationScore_eq] <;> norm_num
  · rw [geoLocationScore_eq] <;> norm_num
  · rw [geoLocationScore_eq] <;> norm_num
  · split
    · rfl
    · rw [geoLocationScore_eq job consultant _ (geoModeBase_le_one jm cm)]

theorem calcGeoMatch_nonneg (job : Job) (consultant : Consultant) :
    0 ≤ calcGeoMatch job consultant := by
  rw [calcGeoMatch_eq]
  rcases job.onsite_mode with _ | jm <;> rcases consultant.onsite_mode with _ | cm
  · exact le_min (by norm_num) (by have := geoBonus_nonneg job consultant; linarith)
  · exact le_min (by norm_num) (by have := geoBonus_nonneg job consultant; linarith)
  · exact le_min (by norm_num) (by have := geoBonus_nonneg job consultant; linarith)
  · dsimp only
    split
    · norm_num
    · exact le_min (by norm_num)
        (add_nonneg (geoModeBase_nonneg jm cm) (geoBonus_nonneg job consultant))

theorem calcGeoMatch_le_one (job : Job) (consultant : Consultant) :
    calcGeoMatch job consultant ≤ 1 := by
  rw [calcGeoMatch_eq]
  rcases job.onsite_mode with _ | jm <;> rcases consultant.onsite_mode with _ | cm
  · exact min_le_left _ _
  · exact min_le_left _ _
  · exact min_le_left _ _
  · dsimp only
    split
    · norm_num
    · exact min_le_left _ _

/-! ## Helper lemmas: skills, role and language sub-scores -/

theorem skillCredit_nonneg (j : String) (cs : List String) : 0 ≤ skillCredit j cs := by
  induction cs with
  | nil => simp [skillCredit]
  | cons c rest ih =>
    unfold skillCredit
    split_ifs
    · norm_num
    · norm_num
    · exact ih

theorem skillCredit_le_one (j : String) (cs : List String) : skillCredit j cs ≤ 1 := by
  induction cs with
  | nil => simp [skillCredit]
  | cons c rest ih =>
    unfold skillCredit
    split_ifs
    · norm_num
    · norm_num
    · exact ih

/-- The inner loop of `_calculate_skills_match` awards the credit of the
**first** consultant skill that matches exactly or fuzzily. -/
theorem skillCredit_eq_spec (j : String) (cs : List String) :
    skillCredit j cs = specSkillCredit j cs := by
  induction cs with
  | nil => rfl
  | cons c rest ih =>
    by_cases h1 : j = c
    · simp [skillCredit, specSkillCredit, List.find?, h1]
    · by_cases h2 : ratioOf j.toList c.toList > 8 / 10
      · have h2' : (8 : ℚ) / 10 < ratioOf j.data c.data := h2
        simp [skillCredit, specSkillCredit, List.find?, h1, h2']
      · simp only [skillCredit, if_neg h1, if_neg h2, ih, specSkillCredit, List.find?,
          decide_eq_true_eq]
        have : (decide (j = c) || decide (ratioOf j.toList c.toList > 8 / 10)) = false := by
          simp only [Bool.or_eq_false_iff, decide_eq_false_iff_not]
          exact ⟨h1, h2⟩
        rw [this]

theorem calcSkillsMatch_nonneg (js cs : List String) : 0 ≤ calcSkillsMatch js cs := by
  unfold calcSkillsMatch
  split_ifs
  · norm_num
  · norm_num
  · refine le_min (by norm_num) (div_nonneg ?_ (by positivity))
    refine List.sum_nonneg ?_
    intro x hx
    obtain ⟨s, _, rfl⟩ := List.mem_map.1 hx
    exact skillCredit_nonneg _ _

theorem calcSkillsMatch_le_one (js cs : List String) : calcSkillsMatch js cs ≤ 1 := by
  unfold calcSkillsMatch
  split_ifs
  · norm_num
  · norm_num
  · exact min_le_left _ _

theorem calcRoleMatch_nonneg (job : Job) (consultant : Consultant) :
    0 ≤ calcRoleMatch job consultant := by
  simp only [calcRoleMatch]
  split_ifs <;> norm_num

theorem calcRoleMatch_le_one (job : Job) (consultant : Consultant) :
    calcRoleMatch job consultant ≤ 1 := by
  simp only [calcRoleMatch]
  split_ifs <;> norm_num

theorem calcLanguageMatch_nonneg (jl cl : List String) : 0 ≤ calcLanguageMatch jl cl := by
  unfold calcLanguageMatch
  split_ifs
  · norm_num
  · norm_num
  · positivity

theorem calcLanguageMatch_le_one (jl cl : List String) : calcLanguageMatch jl cl ≤ 1 := by
  unfold calcLanguageMatch
  split_ifs with h1 h2
  · norm_num
  · norm_num
  · have hlen : 0 < jl.length := List.length_pos.2 (by simpa [List.isEmpty_iff] using h1)
    have hml : 0 < ((jl.map (fun l => strStrip (strLower l))).length : ℚ) := by
      simp only [List.length_map]
      exact_mod_cast hlen
    rw [div_le_one hml]
    exact_mod_cast List.length_filter_le _ _

/-! ## Helper lemmas: cosine similarity -/

theorem sumSq_nonneg (v : List ℝ) : 0 ≤ sumSq v := by
  refine List.sum_nonneg ?_
  intro x hx
  obtain ⟨y, _, rfl⟩ := List.mem_map.1 hx
  positivity

/-- Cauchy–Schwarz for the zip-with dot product of two real lists. -/
theorem listDot_sq_le (v1 v2 : List ℝ) : (listDot v1 v2) ^ 2 ≤ sumSq v1 * sumSq v2 := by
  induction v1 generalizing v2 with
  | nil => simp [listDot, sumSq]
  | cons a as ih =>
    cases v2 with
    | nil => simp [listDot, sumSq]
    | cons b bs =>
      have hA : 0 ≤ sumSq as := sumSq_nonneg as
      have hB : 0 ≤ sumSq bs := sumSq_nonneg bs
      have hIH := ih bs
      simp only [listDot, sumSq, List.zipWith_cons_cons, List.map_cons, List.sum_cons] at *
      rcases eq_or_lt_of_le hB with hB0 | hBpos
      · have hD : (List.zipWith (fun x1 x2 => x1 * x2) as bs).sum = 0 := by
          nlinarith [hIH, sq_nonneg (List.zipWith (fun x1 x2 => x1 * x2) as bs).sum]
        rw [hD] at *
        nlinarith [mul_nonneg (sq_nonneg b) hA, sq_nonneg a, sq_nonneg b,
          mul_nonneg (sq_nonneg a) hB]
      · nlinarith [sq_nonneg (a * (bs.map (fun x => x ^ 2)).sum -
            b * (List.zipWith (fun x1 x2 => x1 * x2) as bs).sum),
          mul_nonneg (add_nonneg (sq_nonneg b) hB) (sub_nonneg.2 hIH),
          hBpos, hA, hB, hIH]

theorem abs_cosineSimilarity_le_one (v1 v2 : List ℝ) :
    |cosineSimilarity v1 v2| ≤ 1 := by
  simp only [cosineSimilarity]
  split_ifs with h1 h2
  · simp
  · simp
  · rw [not_or] at h2
    obtain ⟨hn1, hn2⟩ := h2
    have hs1 : 0 ≤ Real.sqrt (sumSq v1) := Real.sqrt_nonneg _
    have hs2 : 0 ≤ Real.sqrt (sumSq v2) := Real.sqrt_nonneg _
    have hp1 : 0 < Real.sqrt (sumSq v1) := lt_of_le_of_ne hs1 (Ne.symm hn1)
    have hp2 : 0 < Real.sqrt (sumSq v2) := lt_of_le_of_ne hs2 (Ne.symm hn2)
    rw [abs_div, abs_of_pos (mul_pos hp1 hp2), div_le_one (mul_pos hp1 hp2)]
    calc |listDot v1 v2| = Real.sqrt ((listDot v1 v2) ^ 2) := (Real.sqrt_sq_eq_abs _).symm
      _ ≤ Real.sqrt (sumSq v1 * sumSq v2) := Real.sqrt_le_sqrt (listDot_sq_le v1 v2)
      _ = Real.sqrt (sumSq v1) * Real.sqrt (sumSq v2) := Real.sqrt_mul (sumSq_nonneg v1) _

/-- Concrete evaluation: two identical one-dimensional unit vectors. -/
theorem cosineSimilarity_one_one : cosineSimilarity [(1 : ℝ)] [(1 : ℝ)] = 1 := by
  unfold cosineSimilarity listDot sumSq
  norm_num

/-- Concrete evaluation: opposite one-dimensional unit vectors. -/
theorem cosineSimilarity_one_negone : cosineSimilarity [(1 : ℝ)] [(-1 : ℝ)] = -1 := by
  unfold cosineSimilarity listDot sumSq
  norm_num

/-! ## Claim C1 -/

/-- Claim C1 (amended).  For every job, consultant and pair of embedding
vectors, the four rule-based sub-scores (skills, role, language, geo) each lie
in `[0,1]`, but the cosine sub-score only lies in `[-1,1]`; consequently the
weighted total lies in `[-0.45, 1]`, and lies in `[0,1]` exactly when the
claim's premise holds in the nonnegative-cosine case.  The original claim
(cosine and total always in `[0,1]`) is refuted by
`C1_total_score_counterexample`. -/
theorem C1_match_score_range (job : Job) (consultant : Consultant) (e1 e2 : List ℝ) :
    -1 ≤ (calcMatchScores job consultant e1 e2).cosine ∧
    (calcMatchScores job consultant e1 e2).cosine ≤ 1 ∧
    0 ≤ (calcMatchScores job consultant e1 e2).skills ∧
    (calcMatchScores job consultant e1 e2).skills ≤ 1 ∧
    0 ≤ (calcMatchScores job consultant e1 e2).role ∧
    (calcMatchScores job consultant e1 e2).role ≤ 1 ∧
    0 ≤ (calcMatchScores job consultant e1 e2).language ∧
    (calcMatchScores job consultant e1 e2).language ≤ 1 ∧
    0 ≤ (calcMatchScores job consultant e1 e2).geo ∧
    (calcMatchScores job consultant e1 e2).geo ≤ 1 ∧
    -(45 / 100) ≤ (calcMatchScores job consultant e1 e2).total ∧
    (calcMatchScores job consultant e1 e2).total ≤ 1 ∧
    (0 ≤ (calcMatchScores job consultant e1 e2).cosine →
      0 ≤ (calcMatchScores job consultant e1 e2).total) := by
  obtain ⟨hc1, hc2⟩ := abs_le.1 (abs_cosineSimilarity_le_one e1 e2)
  have hsk0 := calcSkillsMatch_nonneg job.skills consultant.skills
  have hsk1 := calcSkillsMatch_le_one job.skills consultant.skills
  have hro0 := calcRoleMatch_nonneg job consultant
  have hro1 := calcRoleMatch_le_one job consultant
  have hla0 := calcLanguageMatch_nonneg job.languages consultant.languages
  have hla1 := calcLanguageMatch_le_one job.languages consultant.languages
  have hge0 := calcGeoMatch_nonneg job consultant
  have hge1 := calcGeoMatch_le_one job consultant
  have rsk0 : (0 : ℝ) ≤ (calcSkillsMatch job.skills consultant.skills : ℝ) := by
    exact_mod_cast hsk0
  have rsk1 : (calcSkillsMatch job.skills consultant.skills : ℝ) ≤ 1 := by exact_mod_cast hsk1
  have rro0 : (0 : ℝ) ≤ (calcRoleMatch job consultant : ℝ) := by exact_mod_cast hro0
  have rro1 : (calcRoleMatch job consultant : ℝ) ≤ 1 := by exact_mod_cast hro1
  have rla0 : (0 : ℝ) ≤ (calcLanguageMatch job.languages consultant.languages : ℝ) := by
    exact_mod_cast hla0
  have rla1 : (calcLanguageMatch job.languages consultant.languages : ℝ) ≤ 1 := by
    exact_mod_cast hla1
  have rge0 : (0 : ℝ) ≤ (calcGeoMatch job consultant : ℝ) := by exact_mod_cast hge0
  have rge1 : (calcGeoMatch job consultant : ℝ) ≤ 1 := by exact_mod_cast hge1
  refine ⟨hc1, hc2, hsk0, hsk1, hro0, hro1, hla0, hla1, hge0, hge1, ?_, ?_, ?_⟩
  · simp only [calcMatchScores, WEIGHT_COSINE, WEIGHT_SKILLS, WEIGHT_ROLE, WEIGHT_LANGUAGE,
      WEIGHT_GEO]
    push_cast
    linarith
  · simp only [calcMatchScores, WEIGHT_COSINE, WEIGHT_SKILLS, WEIGHT_ROLE, WEIGHT_LANGUAGE,
      WEIGHT_GEO]
    push_cast
    linarith
  · intro hpos
    have hpos' : (0 : ℝ) ≤ cosineSimilarity e1 e2 := hpos
    simp only [calcMatchScores, WEIGHT_COSINE, WEIGHT_SKILLS, WEIGHT_ROLE, WEIGHT_LANGUAGE,
      WEIGHT_GEO]
    push_cast
    linarith

/-- Claim C1 counterexample: at the explicit input `(jScore, cScore, [1], [-1])`
the cosine sub-score is `-1 ∉ [0,1]` and the total is `-0.36 ∉ [0,1]`. -/
theorem C1_total_score_counterexample :
    (calcMatchScores jScore cScore [(1 : ℝ)] [(-1 : ℝ)]).cosine = -1 ∧
    (calcMatchScores jScore cScore [(1 : ℝ)] [(-1 : ℝ)]).total < 0 := by
  have hsk : calcSkillsMatch jScore.skills cScore.skills = 0 := rfl
  have hro : calcRoleMatch jScore cScore = 5 / 10 := rfl
  have hla : calcLanguageMatch jScore.languages cScore.languages = 0 := rfl
  have hge : calcGeoMatch jScore cScore = 3 / 10 := rfl
  constructor
  · exact cosineSimilarity_one_negone
  · simp only [calcMatchScores, WEIGHT_COSINE, WEIGHT_SKILLS, WEIGHT_ROLE, WEIGHT_LANGUAGE,
      WEIGHT_GEO, hsk, hro, hla, hge, cosineSimilarity_one_negone]
    push_cast
    norm_num

/-- Witness for `C1_match_score_range`: at `(jScore, cScore, [1], [1])` the
cosine premise of the final conjunct holds and the conclusion follows. -/
theorem C1_match_score_range_witness :
    0 ≤ (calcMatchScores jScore cScore [(1 : ℝ)] [(1 : ℝ)]).cosine ∧
    0 ≤ (calcMatchScores jScore cScore [(1 : ℝ)] [(1 : ℝ)]).total := by
  have hc : (calcMatchScores jScore cScore [(1 : ℝ)] [(1 : ℝ)]).cosine = 1 :=
    cosineSimilarity_one_one
  have h := C1_match_score_range jScore cScore [(1 : ℝ)] [(1 : ℝ)]
  have hpos : 0 ≤ (calcMatchScores jScore cScore [(1 : ℝ)] [(1 : ℝ)]).cosine := by
    rw [hc]
    norm_num
  exact ⟨hpos, h.2.2.2.2.2.2.2.2.2.2.2.2 hpos⟩

/-! ## Claim C4 -/

/-- Claim C4 (amended).  The geo sub-score starts from the onsite-mode
compatibility base (0.7 hybrid↔{hybrid,onsite}, 0.8 exact mode match, 0.3
mismatch, 0.5 when a mode is missing) and adds the location bonus (+0.3 exact
city, else +0.2 same regional cluster, else +0.1 same country) capped at 1.0 —
**except** that when either present mode is `remote` the function returns the
0.9 base immediately and no location bonus is ever added
(`C4_geo_remote_counterexample` refutes the original "bonus on every base,
including remote" reading). -/
theorem C4_geo_base_plus_bonus (job : Job) (consultant : Consultant) :
    calcGeoMatch job consultant =
      match job.onsite_mode, consultant.onsite_mode with
      | some jm, some cm =>
        if jm = OnsiteMode.remote ∨ cm = OnsiteMode.remote then 9 / 10
        else min 1 (geoModeBase jm cm + geoBonus job consultant)
      | _, _ => min 1 (1 / 2 + geoBonus job consultant) :=
  calcGeoMatch_eq job consultant

/-- Claim C4 counterexample: a remote job and a remote consultant in the same
city (`jRemote`/`cRemote`) score 0.9, not the `min 1 (0.9 + 0.3) = 1.0` the
claim requires for a remote base with an exact city match. -/
theorem C4_geo_remote_counterexample :
    calcGeoMatch jRemote cRemote = 9 / 10 ∧ exactCityMatch jRemote cRemote = true ∧
      (9 : ℚ) / 10 ≠ min 1 (9 / 10 + 3 / 10) := by
  refine ⟨rfl, rfl, ?_⟩
  norm_num

/-! ## Claim C8 -/

/-- Claim C8.  Holding the onsite-mode base fixed (both modes present, neither
remote), the geo sub-score is monotone in location specificity: exact city
match ≥ same-region ≥ same-country ≥ no location agreement. -/
theorem C8_geo_monotonic (jm cm : OnsiteMode) (j1 j2 j3 j4 : Job)
    (c1 c2 c3 c4 : Consultant)
    (hm : jm ≠ OnsiteMode.remote ∧ cm ≠ OnsiteMode.remote)
    (hmode : j1.onsite_mode = some jm ∧ j2.onsite_mode = some jm ∧
      j3.onsite_mode = some jm ∧ j4.onsite_mode = some jm ∧
      c1.onsite_mode = some cm ∧ c2.onsite_mode = some cm ∧
      c3.onsite_mode = some cm ∧ c4.onsite_mode = some cm)
    (h1 : exactCityMatch j1 c1 = true)
    (h2 : sameRegionMatch j2 c2 = true)
    (h3 : exactCityMatch j3 c3 = false ∧ sameRegionMatch j3 c3 = false ∧
      sameCountryMatch j3 c3 = true)
    (h4 : exactCityMatch j4 c4 = false ∧ sameRegionMatch j4 c4 = false ∧
      sameCountryMatch j4 c4 = false) :
    calcGeoMatch j4 c4 ≤ calcGeoMatch j3 c3 ∧ calcGeoMatch j3 c3 ≤ calcGeoMatch j2 c2 ∧
      calcGeoMatch j2 c2 ≤ calcGeoMatch j1 c1 := by
  obtain ⟨hj1, hj2, hj3, hj4, hc1, hc2, hc3, hc4⟩ := hmode
  have hrem : ¬(jm = OnsiteMode.remote ∨ cm = OnsiteMode.remote) := by
    rcases hm with ⟨ha, hb⟩
    rintro (h | h) <;> [exact ha h; exact hb h]
  have e1 : calcGeoMatch j1 c1 = min 1 (geoModeBase jm cm + geoBonus j1 c1) := by
    rw [calcGeoMatch_eq, hj1, hc1]
    simp only [if_neg hrem]
  have e2 : calcGeoMatch j2 c2 = min 1 (geoModeBase jm cm + geoBonus j2 c2) := by
    rw [calcGeoMatch_eq, hj2, hc2]
    simp only [if_neg hrem]
  have e3 : calcGeoMatch j3 c3 = min 1 (geoModeBase jm cm + geoBonus j3 c3) := by
    rw [calcGeoMatch_eq, hj3, hc3]
    simp only [if_neg hrem]
  have e4 : calcGeoMatch j4 c4 = min 1 (geoModeBase jm cm + geoBonus j4 c4) := by
    rw [calcGeoMatch_eq, hj4, hc4]
    simp only [if_neg hrem]
  have hb1 : geoBonus j1 c1 = 3 / 10 := by simp [geoBonus, h1]
  have hb2 : 2 / 10 ≤ geoBonus j2 c2 := by
    unfold geoBonus
    by_cases he : exactCityMatch j2 c2 = true
    · simp only [he, if_true]
      norm_num
    · rw [Bool.not_eq_true] at he
      simp only [he, Bool.false_eq_true, if_false, h2, if_true]
      norm_num
  have hb2' : geoBonus j2 c2 ≤ 3 / 10 := by
    unfold geoBonus
    split_ifs <;> norm_num
  have hb3 : geoBonus j3 c3 = 1 / 10 := by simp [geoBonus, h3.1, h3.2.1, h3.2.2]
  have hb4 : geoBonus j4 c4 = 0 := by simp [geoBonus, h4.1, h4.2.1, h4.2.2]
  refine ⟨?_, ?_, ?_⟩
  · rw [e4, e3, hb4, hb3]
    exact min_le_min le_rfl (by linarith)
  · rw [e3, e2, hb3]
    exact min_le_min le_rfl (by linarith)
  · rw [e2, e1, hb1]
    exact min_le_min le_rfl (by linarith)

/-- Witness for `C8_geo_monotonic`: the four concrete onsite/onsite pairs
`(jGeo1..4, cGeo1..4)` with decreasing location agreement. -/
theorem C8_geo_monotonic_witness :
    calcGeoMatch jGeo4 cGeo4 ≤ calcGeoMatch jGeo3 cGeo3 ∧
      calcGeoMatch jGeo3 cGeo3 ≤ calcGeoMatch jGeo2 cGeo2 ∧
      calcGeoMatch jGeo2 cGeo2 ≤ calcGeoMatch jGeo1 cGeo1 :=
  C8_geo_monotonic OnsiteMode.onsite OnsiteMode.onsite jGeo1 jGeo2 jGeo3 jGeo4
    cGeo1 cGeo2 cGeo3 cGeo4 (by decide) ⟨rfl, rfl, rfl, rfl, rfl, rfl, rfl, rfl⟩
    rfl rfl ⟨rfl, rfl, rfl⟩ ⟨rfl, rfl, rfl⟩

/-! ## Claim C5 -/

/-- Claim C5 (amended).  The skills sub-score is 1.0 when no job skills are
required, 0.0 when skills are required and the consultant lists none, and
otherwise the per-skill credit sum divided by the required-skill count and
capped at 1.0 — but the credit for a required skill is decided by the
**first** consultant skill in list order that matches exactly (credit 1.0) or
fuzzily above the 0.8 ratio (credit 0.8): an exact match earns 1.0 only when
no fuzzy match precedes it in the consultant's list
(`C5_skills_exact_shadowed_counterexample`). -/
theorem C5_skills_first_match (jobSkills consultantSkills : List String) :
    (jobSkills = [] → calcSkillsMatch jobSkills consultantSkills = 1) ∧
    (jobSkills ≠ [] → consultantSkills = [] →
      calcSkillsMatch jobSkills consultantSkills = 0) ∧
    (jobSkills ≠ [] → consultantSkills ≠ [] →
      calcSkillsMatch jobSkills consultantSkills =
        min 1 ((jobSkills.map (fun s => specSkillCredit (strStrip (strLower s))
          (consultantSkills.map (fun t => strStrip (strLower t))))).sum /
            jobSkills.length)) := by
  refine ⟨?_, ?_, ?_⟩
  · intro h
    simp [calcSkillsMatch, h]
  · intro h1 h2
    subst h2
    have h1' : jobSkills.isEmpty = false := by simpa [List.isEmpty_iff] using h1
    simp [calcSkillsMatch, h1']
  · intro h1 h2
    unfold calcSkillsMatch
    rw [if_neg (by simpa [List.isEmpty_iff] using h1),
      if_neg (by simpa [List.isEmpty_iff] using h2)]
    simp [skillCredit_eq_spec, List.length_map, List.map_map, Function.comp_def]

/-- Claim C5 counterexample: the consultant list `["javaa", "java"]` contains the
exact (case-insensitive) match `"java"` for the required skill `"java"`, yet
the score is the fuzzy credit 0.8, not 1.0, because the earlier fuzzy match
`"javaa"` (ratio 8/9 > 0.8) breaks the loop first. -/
theorem C5_skills_exact_shadowed_counterexample :
    calcSkillsMatch ["java"] ["javaa", "java"] = 8 / 10 ∧ (8 : ℚ) / 10 ≠ 1 ∧
      "java" ∈ ["javaa", "java"] := by
  have hratio : ratioOf "java".toList "javaa".toList = 8 / 9 := by
    have h1 : matchingTotal ("java".toList.length + "javaa".toList.length + 1)
        "java".toList "javaa".toList = 4 := rfl
    have hl1 : "java".toList.length = 4 := rfl
    have hl2 : "javaa".toList.length = 5 := rfl
    unfold ratioOf
    rw [h1, hl1, hl2]
    norm_num
  have hcred : skillCredit "java" ["javaa", "java"] = 8 / 10 := by
    unfold skillCredit
    rw [if_neg (by decide), if_pos (by rw [hratio]; norm_num)]
  have hs1 : strStrip (strLower "java") = "java" := rfl
  have hs2 : strStrip (strLower "javaa") = "javaa" := rfl
  refine ⟨?_, by norm_num, by decide⟩
  unfold calcSkillsMatch
  simp only [List.isEmpty_cons, Bool.false_eq_true, if_false, List.map_cons, List.map_nil,
    hs1, hs2, hcred, List.sum_cons, List.sum_nil, List.length_cons, List.length_nil]
  norm_num

/-- Witness for `C5_skills_first_match`: all three branches at concrete
inputs. -/
theorem C5_skills_first_match_witness :
    calcSkillsMatch [] ["x"] = 1 ∧ calcSkillsMatch ["x"] [] = 0 ∧
      calcSkillsMatch ["Java"] ["java"] =
        min 1 ((["Java"].map (fun s => specSkillCredit (strStrip (strLower s))
          (["java"].map (fun t => strStrip (strLower t))))).sum /
            (["Java"] : List String).length) :=
  ⟨(C5_skills_first_match [] ["x"]).1 rfl,
   (C5_skills_first_match ["x"] []).2.1 (by decide) rfl,
   (C5_skills_first_match ["Java"] ["java"]).2.2 (by decide) (by decide)⟩

/-! ## Claim C9 -/

/-- Claim C9 (amended).  On equal-length vector pairs — the only shape the
program ever feeds it, every stored embedding having dimension 1536 —
`cosine_similarity` is total: it returns 0 whenever either vector is empty
(this guard runs before any numpy call, so it holds for any pair) or has zero
Euclidean norm, and otherwise returns the dot product divided by the product
of norms, whose divisor is provably nonzero.  On non-empty vectors of
unequal length `np.dot` raises `ValueError`, so the original "total on all
pairs" reading is refuted by `C9_shape_mismatch_counterexample`. -/
theorem C9_cosine_zero_guard (v1 v2 : List ℝ) :
    (v1 = [] ∨ v2 = [] → cosineSimilarityChecked v1 v2 = .ok 0) ∧
    (v1.length = v2.length →
      ((sumSq v1 = 0 ∨ sumSq v2 = 0) → cosineSimilarityChecked v1 v2 = .ok 0) ∧
      cosineSimilarityChecked v1 v2 = .ok (cosineSimilarity v1 v2) ∧
      (cosineSimilarity v1 v2 = 0 ∨
        (Real.sqrt (sumSq v1) * Real.sqrt (sumSq v2) ≠ 0 ∧
          cosineSimilarity v1 v2 =
            listDot v1 v2 / (Real.sqrt (sumSq v1) * Real.sqrt (sumSq v2))))) := by
  have hchecked : v1.length = v2.length →
      cosineSimilarityChecked v1 v2 = .ok (cosineSimilarity v1 v2) := by
    intro hlen
    unfold cosineSimilarityChecked
    split_ifs with h1 h2
    · unfold cosineSimilarity
      rw [if_pos h1]
    · exact absurd hlen h2
    · rfl
  have hzero : (sumSq v1 = 0 ∨ sumSq v2 = 0) → cosineSimilarity v1 v2 = 0 := by
    intro h
    simp only [cosineSimilarity]
    split_ifs with h1 h2
    · rfl
    · rfl
    · exfalso
      rw [not_or] at h2
      rcases h with h | h
      · exact h2.1 (by rw [h, Real.sqrt_zero])
      · exact h2.2 (by rw [h, Real.sqrt_zero])
  refine ⟨?_, fun hlen => ⟨fun h => by rw [hchecked hlen, hzero h], hchecked hlen, ?_⟩⟩
  · rintro (h | h) <;> subst h
    · simp [cosineSimilarityChecked]
    · simp [cosineSimilarityChecked]
  · simp only [cosineSimilarity]
    split_ifs with h1 h2
    · exact Or.inl rfl
    · exact Or.inl rfl
    · rw [not_or] at h2
      exact Or.inr ⟨mul_ne_zero h2.1 h2.2, rfl⟩

/-- Claim C9 counterexample: on the non-empty vectors `[1]` and `[1, 1]` of
different lengths `np.dot` raises `ValueError` — `cosine_similarity` is not a
total function on all pairs of numeric vectors, and in particular does not
return `0.0` there. -/
theorem C9_shape_mismatch_counterexample :
    cosineSimilarityChecked [(1 : ℝ)] [(1 : ℝ), (1 : ℝ)] = .error .valueError ∧
      (Except.error PyErr.valueError : Except PyErr ℝ) ≠ .ok 0 := by
  constructor
  · unfold cosineSimilarityChecked
    rw [if_neg (by simp), if_pos (by simp)]
  · simp

/-- Witness for `C9_cosine_zero_guard`: an empty first vector, and the
equal-length pair `[0]`, `[1]` whose first vector has zero norm. -/
theorem C9_cosine_zero_guard_witness :
    cosineSimilarityChecked ([] : List ℝ) [(1 : ℝ)] = .ok 0 ∧
      cosineSimilarityChecked [(0 : ℝ)] [(1 : ℝ)] = .ok 0 := by
  refine ⟨(C9_cosine_zero_guard ([] : List ℝ) [(1 : ℝ)]).1 (Or.inl rfl), ?_⟩
  have h := (C9_cosine_zero_guard [(0 : ℝ)] [(1 : ℝ)]).2 (by simp)
  exact h.1 (Or.inl (by simp [sumSq]))

/-! ## Helper lemmas: scan cycle runner -/

/-- Class `MatchingService` has no `find_matches_for_job`, so the call raises. -/
theorem findMatchesForJobCall_error (job_id : Nat) :
    findMatchesForJobCall job_id = .error .attributeError := by
  unfold findMatchesForJobCall
  rw [if_neg (by decide)]

theorem generateMatchesForJobs_foldl (jobs : List Job) (acc : List MatchRow) :
    jobs.foldl (fun all_matches job =>
      match findMatchesForJobCall job.job_id with
      | .ok ms => all_matches ++ ms
      | .error _ => all_matches) acc = acc := by
  induction jobs generalizing acc with
  | nil => rfl
  | cons j rest ih =>
    rw [List.foldl_cons, findMatchesForJobCall_error]
    exact ih acc

/-- The scheduler's per-job matching wrapper swallows the `AttributeError`
for every job, so it always returns the empty match list. -/
theorem generateMatchesForJobs_eq_nil (jobs : List Job) :
    generateMatchesForJobs jobs = [] :=
  generateMatchesForJobs_foldl jobs []

theorem sourceContribution_snd (env : SchedulerEnv) (config_id : Nat)
    (overrides : List SourceOverride) (source_name : String) :
    (sourceContribution env config_id overrides source_name).2 = 0 := by
  unfold sourceContribution
  split_ifs
  · rfl
  · cases env.scrape config_id source_name with
    | error e => rfl
    | ok jobs => simp [generateMatchesForJobs_eq_nil]

theorem scanSourceStep_eq (env : SchedulerEnv) (config_id : Nat)
    (overrides : List SourceOverride) (acc : Nat × Nat) (source_name : String) :
    scanSourceStep env config_id overrides acc source_name =
      (acc.1 + (sourceContribution env config_id overrides source_name).1,
        acc.2 + (sourceContribution env config_id overrides source_name).2) := by
  unfold scanSourceStep sourceContribution
  by_cases hskip : (match lastOverrideFor overrides source_name with
      | some o => !o.is_enabled
      | none => false) = true
  · rw [if_pos hskip, if_pos hskip]
    simp
  · rw [if_neg hskip, if_neg hskip]
    cases hs : env.scrape config_id source_name with
    | error e => simp
    | ok jobs =>
      by_cases hj : jobs = []
      · subst hj
        simp [generateMatchesForJobs_eq_nil]
      · have hj' : jobs.isEmpty = false := by simpa [List.isEmpty_iff] using hj
        simp [hj']

theorem scanSources_foldl (env : SchedulerEnv) (config_id : Nat)
    (overrides : List SourceOverride) (srcs : List String) (acc : Nat × Nat) :
    srcs.foldl (scanSourceStep env config_id overrides) acc =
      (acc.1 + (srcs.map (fun s => (sourceContribution env config_id overrides s).1)).sum,
        acc.2 + (srcs.map (fun s => (sourceContribution env config_id overrides s).2)).sum) := by
  induction srcs generalizing acc with
  | nil => simp
  | cons s rest ih =>
    rw [List.foldl_cons, scanSourceStep_eq, ih]
    simp [Nat.add_assoc]

/-- Closed form of `_scan_with_config`: the override fetch decides failure;
on success the counters are the per-source contribution sums. -/
theorem scanWithConfig_eq (env : SchedulerEnv) (config_id : Nat) :
    scanWithConfig env config_id =
      match env.getSourceOverrides config_id with
      | .error e => .error e
      | .ok overrides =>
        .ok ((env.enabledSources.map
            (fun s => (sourceContribution env config_id overrides s).1)).sum,
          (env.enabledSources.map
            (fun s => (sourceContribution env config_id overrides s).2)).sum) := by
  unfold scanWithConfig
  cases env.getSourceOverrides config_id with
  | error e => rfl
  | ok overrides =>
    dsimp only
    rw [scanSources_foldl]
    simp

theorem runDailyScan_foldl (env : SchedulerEnv) (configs : List Nat)
    (acc : List PerformanceLogEntry × Nat × Nat) :
    configs.foldl (dailyScanStep env) acc =
      (acc.1 ++ configs.filterMap (perfEntrySpec env),
        acc.2.1 + ((configs.filterMap (perfEntrySpec env)).map
          (fun e => e.jobs_found)).sum,
        acc.2.2 + ((configs.filterMap (perfEntrySpec env)).map
          (fun e => e.matches_generated)).sum) := by
  induction configs generalizing acc with
  | nil => simp
  | cons c rest ih =>
    rw [List.foldl_cons]
    have hstep : dailyScanStep env acc c =
        match perfEntrySpec env c with
        | none => acc
        | some e => (acc.1 ++ [e], acc.2.1 + e.jobs_found, acc.2.2 + e.matches_generated) := by
      unfold dailyScanStep perfEntrySpec
      rw [scanWithConfig_eq]
      cases env.getSourceOverrides c with
      | error e => rfl
      | ok overrides => rfl
    rw [hstep]
    cases hp : perfEntrySpec env c with
    | none =>
      rw [ih]
      simp [List.filterMap_cons, hp]
    | some e =>
      rw [ih]
      simp [List.filterMap_cons, hp, Nat.add_assoc]

theorem perfEntrySpec_fields (env : SchedulerEnv) (config_id : Nat)
    (e : PerformanceLogEntry) (h : perfEntrySpec env config_id = some e) :
    e.matches_generated = 0 ∧
      e.quality_score = (e.matches_generated : ℚ) / (max e.jobs_found 1) := by
  unfold perfEntrySpec at h
  cases hov : env.getSourceOverrides config_id <;> rw [hov] at h
  · exact absurd h (by simp)
  case ok overrides =>
    have hM : (env.enabledSources.map
        (fun s => (sourceContribution env config_id overrides s).2)).sum = 0 := by
      refine List.sum_eq_zero ?_
      intro x hx
      obtain ⟨s, _, rfl⟩ := List.mem_map.1 hx
      exact sourceContribution_snd env config_id overrides s
    have he := (Option.some.inj h).symm
    subst he
    rw [hM]
    unfold logConfigPerformance
    refine ⟨rfl, ?_⟩
    split_ifs <;> simp

/-- Class `DatabaseRepository` has no `summarize_active_consultants`, so the
call raises. -/
theorem summarizeActiveConsultantsCall_error :
    summarizeActiveConsultantsCall = .error .attributeError := by
  unfold summarizeActiveConsultantsCall
  rw [if_neg (by decide)]

theorem scanConfigsLoop_entries (env : SchedulerEnv) (active_configs : List Nat) :
    (scanConfigsLoop env active_configs).1 =
      active_configs.filterMap (perfEntrySpec env) := by
  unfold scanConfigsLoop
  rw [runDailyScan_foldl]
  simp

/-! ## Claim C2 -/

/-- Claim C2 (code-bug evidence).  scheduler.py:297 calls
`matching_service.find_matches_for_job`, a method `MatchingService` never
defines; the per-job `try/except` swallows the resulting `AttributeError`, so
`_generate_matches_for_jobs` always returns `[]`, the `matches_generated`
counter of every successful `_scan_with_config` is 0, and the
matches-generated total is 0 both for the configuration loop in isolation and
for every completing `run_daily_scan` — the newly stored postings are never
actually handed to the Match Orchestrator, and the claim's above-threshold
scan can never produce a non-zero `matches_generated`. -/
theorem C2_scan_cycle_matches_always_zero (jobs : List Job) (env : SchedulerEnv)
    (config_id : Nat) (active_configs : List Nat) :
    generateMatchesForJobs jobs = [] ∧
    ((scanWithConfig env config_id).toOption.map (fun p => p.2)).getD 0 = 0 ∧
    (scanConfigsLoop env active_configs).2.2 = 0 ∧
    ((runDailyScan env active_configs).toOption.map (fun r => r.2.2)).getD 0 = 0 := by
  have hloop : (scanConfigsLoop env active_configs).2.2 = 0 := by
    unfold scanConfigsLoop
    rw [runDailyScan_foldl]
    dsimp only
    rw [Nat.zero_add]
    refine List.sum_eq_zero ?_
    intro x hx
    obtain ⟨e, he, rfl⟩ := List.mem_map.1 hx
    obtain ⟨cid, _, hsome⟩ := List.mem_filterMap.1 he
    exact (perfEntrySpec_fields env cid e hsome).1
  refine ⟨generateMatchesForJobs_eq_nil jobs, ?_, hloop, ?_⟩
  · rw [scanWithConfig_eq]
    cases env.getSourceOverrides config_id with
    | error e => rfl
    | ok overrides =>
      dsimp only
      simp only [Except.toOption, Option.map_some, Option.getD_some]
      refine List.sum_eq_zero ?_
      intro x hx
      obtain ⟨s, _, rfl⟩ := List.mem_map.1 hx
      exact sourceContribution_snd env config_id overrides s
  · unfold runDailyScan
    split_ifs
    · rfl
    · rw [summarizeActiveConsultantsCall_error]
      rfl

/-! ## Claim C6 -/

/-- Claim C6 (code-bug evidence).  `run_daily_scan` calls
`db_repo.summarize_active_consultants()` (scheduler.py:157) before its
configuration loop, but `DatabaseRepository` (repo.py) defines no such
method; the outer handler (lines 188-190) logs and re-raises the
`AttributeError`, so every daily scan with at least one active configuration
crashes before scanning anything and writes **zero** PerformanceLogEntries.
The configuration loop the claim describes (lines 161-181) is dead code; run
in isolation it would satisfy the claim: exactly one aggregated entry per
configuration whose override fetch succeeds (a failing source or
configuration never blocks the rest), with
`quality_score = matches_generated / max(jobs_found, 1)`. -/
theorem C6_daily_scan_blocked (env : SchedulerEnv) (active_configs : List Nat) :
    runDailyScan env active_configs =
      (if active_configs.isEmpty then .ok ([], 0, 0) else .error .attributeError) ∧
    (scanConfigsLoop env active_configs).1 =
      active_configs.filterMap (perfEntrySpec env) ∧
    ((scanConfigsLoop env active_configs).1.all (fun e =>
      e.quality_score == (e.matches_generated : ℚ) / (max e.jobs_found 1))) = true := by
  refine ⟨?_, scanConfigsLoop_entries env active_configs, ?_⟩
  · unfold runDailyScan
    split_ifs
    · rfl
    · rw [summarizeActiveConsultantsCall_error]
  · rw [scanConfigsLoop_entries, List.all_eq_true]
    intro e he
    obtain ⟨cid, _, hsome⟩ := List.mem_filterMap.1 he
    exact beq_iff_eq.2 (perfEntrySpec_fields env cid e hsome).2

/-! ## Helper lemmas: adaptive optimizer -/

theorem foldl_max_le (q : ℚ) (qs : List ℚ) :
    q ≤ qs.foldl max q ∧ ∀ x ∈ qs, x ≤ qs.foldl max q := by
  induction qs generalizing q with
  | nil => exact ⟨le_rfl, by simp⟩
  | cons a as ih =>
    rw [List.foldl_cons]
    obtain ⟨h1, h2⟩ := ih (max q a)
    refine ⟨le_trans (le_max_left q a) h1, ?_⟩
    intro x hx
    rcases List.mem_cons.1 hx with rfl | hx'
    · exact le_trans (le_max_right q x) h1
    · exact h2 x hx'

theorem foldl_max_mem (q : ℚ) (qs : List ℚ) :
    qs.foldl max q = q ∨ qs.foldl max q ∈ qs := by
  induction qs generalizing q with
  | nil => exact Or.inl rfl
  | cons a as ih =>
    rw [List.foldl_cons]
    rcases ih (max q a) with h | h
    · rcases max_choice q a with hm | hm
      · exact Or.inl (by rw [h, hm])
      · exact Or.inr (by rw [h, hm]; exact List.mem_cons_self a as)
    · exact Or.inr (List.mem_cons_of_mem a h)

/-- Python's `max(...)` over the best performers is attained by one of them
and bounds all of them. -/
theorem bestQuality_spec (best : List PerformanceRow) (hne : best ≠ []) :
    (∃ p ∈ best, bestQuality best = p.quality_score.getD 0) ∧
      ∀ p ∈ best, p.quality_score.getD 0 ≤ bestQuality best := by
  cases best with
  | nil => exact absurd rfl hne
  | cons p ps =>
    unfold bestQuality
    simp only [List.map_cons]
    constructor
    · rcases foldl_max_mem (p.quality_score.getD 0)
          (ps.map fun r => r.quality_score.getD 0) with h | h
      · exact ⟨p, List.mem_cons_self p ps, h⟩
      · obtain ⟨p', hp', heq⟩ := List.mem_map.1 h
        exact ⟨p', List.mem_cons_of_mem p hp', heq.symm⟩
    · intro p' hp'
      obtain ⟨h1, h2⟩ := foldl_max_le (p.quality_score.getD 0)
        (ps.map fun r => r.quality_score.getD 0)
      rcases List.mem_cons.1 hp' with rfl | hmem
      · exact h1
      · exact h2 _ (List.mem_map_of_mem _ hmem)

/-! ## Claim C7 -/

theorem upsertLearningParameterCall_error (parameter_name parameter_value : String)
    (effectiveness_score : ℚ) (learned_from_config_id : Nat) :
    upsertLearningParameterCall parameter_name parameter_value effectiveness_score
      learned_from_config_id = .error .typeError := by
  unfold upsertLearningParameterCall
  rw [if_neg (by decide)]

theorem promoteValues_eq (effectiveness_score : ℚ) (config_id : Nat)
    (param_name : String) (values : List String) :
    promoteValues effectiveness_score config_id param_name values =
      ([], if values.isEmpty then .ok () else .error .typeError) := by
  cases values with
  | nil => rfl
  | cons v vs =>
    unfold promoteValues
    rw [upsertLearningParameterCall_error]
    rfl

theorem promoteParams_writes_nil (effectiveness_score : ℚ) (config_id : Nat)
    (pairs : List (String × List String)) :
    (promoteParams effectiveness_score config_id pairs).1 = [] := by
  induction pairs with
  | nil => rfl
  | cons pv rest ih =>
    unfold promoteParams
    rw [promoteValues_eq]
    by_cases hv : pv.2.isEmpty
    · rcases pv with ⟨n, vals⟩
      simp only at hv
      rw [hv]
      dsimp only
      rcases hp : promoteParams effectiveness_score config_id rest with ⟨ws, r⟩
      rw [hp] at ih
      simpa using ih
    · rcases pv with ⟨n, vals⟩
      simp only at hv
      rw [Bool.not_eq_true] at hv
      rw [hv]
      rfl

/-- No learning-parameter write is ever performed: the first upsert attempt
raises `TypeError` and aborts the extraction. -/
theorem extractLearningParameters_writes_nil (config : OptimizerConfig)
    (performance_data : List PerformanceRow) :
    (extractLearningParameters config performance_data).1 = [] := by
  simp only [extractLearningParameters]
  split_ifs
  · rfl
  · exact promoteParams_writes_nil _ _ _

/-- Claim C7 (code-bug evidence).  The no-rows and mean-write parts of the
claim hold of the code, but the promotion clause does not:
`_extract_learning_parameters` calls `db_repo.upsert_learning_parameter` with
the keyword arguments `parameter_name` / `parameter_value` /
`learned_from_config_id` (scheduler.py lines 426-431), which do not match the
parameter names of repo.py:1264 (`param_name` / `param_value` / `config_id`).
The first promotion attempt therefore raises `TypeError`,
`_optimize_single_config` swallows it, and no LearnedParameter is ever
written: a non-empty window produces exactly the mean performance-score write
and nothing else, even when rows exceed 0.7 and target values exist. -/
theorem C7_optimizer_promotions_lost (config : OptimizerConfig)
    (performance_data : List PerformanceRow) :
    optimizeSingleConfig config [] = [] ∧
    (performance_data ≠ [] →
      optimizeSingleConfig config performance_data =
        [OptimizerWrite.updatePerformanceScore config.config_id
          ((performance_data.map (fun p => p.quality_score.getD 0)).sum /
            performance_data.length)]) ∧
    (extractLearningParameters config performance_data).1 = [] ∧
    (config.target_skills ≠ [] →
      (∃ p ∈ performance_data, p.quality_score.getD 0 > 7 / 10) →
      (extractLearningParameters config performance_data).2 = .error .typeError) := by
  refine ⟨rfl, ?_, extractLearningParameters_writes_nil config performance_data, ?_⟩
  · intro hne
    simp only [optimizeSingleConfig]
    rw [if_neg (by simpa [List.isEmpty_iff] using hne),
      extractLearningParameters_writes_nil]
  · rintro hskills ⟨p, hp, hgt⟩
    have hbne : performance_data.filter
        (fun r => r.quality_score.getD 0 > 7 / 10) ≠ [] :=
      List.ne_nil_of_mem (List.mem_filter.2 ⟨hp, by simpa using hgt⟩)
    have hskills' : config.target_skills.isEmpty = false := by
      simpa [List.isEmpty_iff] using hskills
    simp only [extractLearningParameters]
    rw [if_neg (by simpa [List.isEmpty_iff] using hbne)]
    unfold promoteParams
    rw [promoteValues_eq, hskills']
    rfl

/-- Witness for `C7_optimizer_promotions_lost`: the concrete configuration
`optCfg` (non-empty target lists) with window `optRows` (a quality 0.8 row
above the 0.7 bar): only the mean write happens and the extraction raises. -/
theorem C7_optimizer_promotions_lost_witness :
    optimizeSingleConfig optCfg optRows =
      [OptimizerWrite.updatePerformanceScore optCfg.config_id
        ((optRows.map (fun p => p.quality_score.getD 0)).sum / optRows.length)] ∧
    (extractLearningParameters optCfg optRows).2 = .error .typeError := by
  have h := C7_optimizer_promotions_lost optCfg optRows
  exact ⟨h.2.1 (by simp [optRows]),
    h.2.2.2 (by simp [optCfg])
      ⟨{ quality_score := some (8 / 10) }, List.mem_cons_self _ _, by norm_num⟩⟩

/-! ## Helper lemmas: match orchestrator -/

theorem calcMatchScores_total_le_one (job : Job) (consultant : Consultant)
    (e1 e2 : List ℝ) : (calcMatchScores job consultant e1 e2).total ≤ 1 := by
  obtain ⟨hc1, hc2⟩ := abs_le.1 (abs_cosineSimilarity_le_one e1 e2)
  have rsk1 : (calcSkillsMatch job.skills consultant.skills : ℝ) ≤ 1 := by
    exact_mod_cast calcSkillsMatch_le_one job.skills consultant.skills
  have rsk0 : (0 : ℝ) ≤ (calcSkillsMatch job.skills consultant.skills : ℝ) := by
    exact_mod_cast calcSkillsMatch_nonneg job.skills consultant.skills
  have rro1 : (calcRoleMatch job consultant : ℝ) ≤ 1 := by
    exact_mod_cast calcRoleMatch_le_one job consultant
  have rro0 : (0 : ℝ) ≤ (calcRoleMatch job consultant : ℝ) := by
    exact_mod_cast calcRoleMatch_nonneg job consultant
  have rla1 : (calcLanguageMatch job.languages consultant.languages : ℝ) ≤ 1 := by
    exact_mod_cast calcLanguageMatch_le_one job.languages consultant.languages
  have rla0 : (0 : ℝ) ≤ (calcLanguageMatch job.languages consultant.languages : ℝ) := by
    exact_mod_cast calcLanguageMatch_nonneg job.languages consultant.languages
  have rge1 : (calcGeoMatch job consultant : ℝ) ≤ 1 := by
    exact_mod_cast calcGeoMatch_le_one job consultant
  have rge0 : (0 : ℝ) ≤ (calcGeoMatch job consultant : ℝ) := by
    exact_mod_cast calcGeoMatch_nonneg job consultant
  simp only [calcMatchScores, WEIGHT_COSINE, WEIGHT_SKILLS, WEIGHT_ROLE, WEIGHT_LANGUAGE,
    WEIGHT_GEO]
  push_cast
  linarith

/-- Unfolding: `run_matching` is the job loop over the resolved job and consultant sets. -/
theorem runMatching_eq (env : DbEnv) (job_ids consultant_ids : Option (List Nat))
    (min_score : ℝ) (max_results : Nat) :
    runMatching env job_ids consultant_ids min_score max_results =
      processJobs env (resolvedConsultants env consultant_ids) min_score max_results
        (resolvedJobs env job_ids) := rfl

theorem filterMap_filter_isSome {α β : Type} (f : α → Option β) (l : List α) :
    ((l.filter (fun i => (f i).isSome)).map f).filterMap id =
      (l.map f).filterMap id := by
  induction l with
  | nil => rfl
  | cons a as ih =>
    cases hfa : f a with
    | none =>
      rw [List.filter_cons_of_neg (by simp [hfa])]
      simp [hfa, ih]
    | some b =>
      rw [List.filter_cons_of_pos (by simp [hfa])]
      simp [hfa, ih]

theorem resolvedJobs_filter (env : DbEnv) (l : List Nat)
    (hne : l.filter (fun i => (env.getJob i).isSome) ≠ []) :
    resolvedJobs env (some (l.filter (fun i => (env.getJob i).isSome))) =
      resolvedJobs env (some l) := by
  have hlne : l ≠ [] := by
    rintro rfl
    exact hne rfl
  obtain ⟨x, xs, hxs⟩ := List.exists_cons_of_ne_nil hne
  obtain ⟨i, is, rfl⟩ := List.exists_cons_of_ne_nil hlne
  unfold resolvedJobs
  rw [hxs]
  dsimp only
  rw [← hxs]
  exact filterMap_filter_isSome env.getJob (i :: is)

theorem resolvedConsultants_filter (env : DbEnv) (l : List Nat)
    (hne : l.filter (fun i => (env.getConsultant i).isSome) ≠ []) :
    resolvedConsultants env (some (l.filter (fun i => (env.getConsultant i).isSome))) =
      resolvedConsultants env (some l) := by
  have hlne : l ≠ [] := by
    rintro rfl
    exact hne rfl
  obtain ⟨x, xs, hxs⟩ := List.exists_cons_of_ne_nil hne
  obtain ⟨i, is, rfl⟩ := List.exists_cons_of_ne_nil hlne
  unfold resolvedConsultants
  rw [hxs]
  dsimp only
  rw [← hxs]
  exact filterMap_filter_isSome env.getConsultant (i :: is)

/-- Concrete evaluation: scoring the stored consultant against `jGood` with
threshold 2 collects nothing (the total never exceeds 1). -/
theorem scoreConsultants_envMatch :
    scoreConsultants envMatch jGood [(1 : ℝ)] 2 [cOne] = ([], .ok []) := by
  have hle := calcMatchScores_total_le_one jGood cOne [(1 : ℝ)] [(1 : ℝ)]
  have hnot : ¬((calcMatchScores jGood cOne [(1 : ℝ)] [(1 : ℝ)]).total ≥ 2) := by
    intro hge
    linarith
  unfold scoreConsultants
  rw [show getOrCreateConsultantEmbedding envMatch cOne = ([], .ok [(1 : ℝ)]) from rfl]
  dsimp only
  rw [if_neg hnot]
  rfl

theorem matchJob_envMatch_good :
    matchJobToConsultants envMatch jGood [cOne] 2 10 = ([], .ok []) := by
  unfold matchJobToConsultants
  rw [show getOrCreateJobEmbedding envMatch jGood = ([], .ok [(1 : ℝ)]) from rfl]
  dsimp only
  rw [scoreConsultants_envMatch]
  rfl

theorem matchJob_envMatch_bad :
    matchJobToConsultants envMatch jBad [cOne] 2 10 = ([], .error .backendFailure) := rfl

/-! ## Claim C3 -/

/-- Claim C3 (amended).  `MatchingService.run_matching` has no per-job error
isolation: when matching one job raises, the exception propagates and the
remaining jobs are never matched — the writes performed for the jobs
processed before the failure (and the failing job's partial writes) are the
only ones kept, and no matches are returned.  (Per-job isolate-and-continue
exists only in the scheduler's `_generate_matches_for_jobs` wrapper.)  The
original claim is refuted by `C3_abort_counterexample`. -/
theorem C3_failure_aborts_remaining (env : DbEnv) (consultants : List Consultant)
    (min_score : ℝ) (max_results : Nat) (pre post : List Job) (jbad : Job) (e : PyErr)
    (hpre : ∀ j ∈ pre,
      (matchJobToConsultants env j consultants min_score max_results).2.isOk = true)
    (hbad : (matchJobToConsultants env jbad consultants min_score max_results).2 =
      .error e) :
    (processJobs env consultants min_score max_results (pre ++ jbad :: post)).2 =
        .error e ∧
      (processJobs env consultants min_score max_results (pre ++ jbad :: post)).1 =
        (processJobs env consultants min_score max_results pre).1 ++
          (matchJobToConsultants env jbad consultants min_score max_results).1 := by
  induction pre with
  | nil =>
    rcases hm : matchJobToConsultants env jbad consultants min_score max_results with ⟨w, r⟩
    rw [hm] at hbad
    dsimp only at hbad
    subst hbad
    constructor
    · show (processJobs env consultants min_score max_results (jbad :: post)).2 = _
      unfold processJobs
      rw [hm]
    · show (processJobs env consultants min_score max_results (jbad :: post)).1 = _
      unfold processJobs
      rw [hm]
      rfl
  | cons j rest ih =>
    have hj := hpre j (List.mem_cons_self j rest)
    have hrest : ∀ j' ∈ rest,
        (matchJobToConsultants env j' consultants min_score max_results).2.isOk = true :=
      fun j' hj' => hpre j' (List.mem_cons_of_mem j hj')
    obtain ⟨h1, h2⟩ := ih hrest
    rcases hm : matchJobToConsultants env j consultants min_score max_results with ⟨w, r⟩
    cases r with
    | error e' =>
      rw [hm] at hj
      simp [Except.isOk, Except.toBool] at hj
    | ok ms =>
      constructor
      · show (processJobs env consultants min_score max_results
            (j :: (rest ++ jbad :: post))).2 = _
        unfold processJobs
        rw [hm]
        dsimp only
        rw [h1]
        rfl
      · show (processJobs env consultants min_score max_results
            (j :: (rest ++ jbad :: post))).1 = _
        unfold processJobs
        rw [hm]
        dsimp only
        rw [h2]
        show w ++ ((processJobs env consultants min_score max_results rest).1 ++ _) = _
        rw [← List.append_assoc]

/-- Claim C3 counterexample: with `envMatch`, matching `jBad` (id 11) fails at
embedding creation while `jGood` (id 10) alone matches fine; running
`run_matching` on `[11, 10]` aborts with the exception — `jGood` is never
matched and nothing is returned or persisted for it. -/
theorem C3_abort_counterexample :
    runMatching envMatch (some [11, 10]) (some [20]) 2 10 =
        ([], .error .backendFailure) ∧
      (matchJobToConsultants envMatch jGood [cOne] 2 10).2 = .ok [] ∧
      (matchJobToConsultants envMatch jBad [cOne] 2 10).2 =
        .error .backendFailure := by
  refine ⟨?_, ?_, ?_⟩
  · rw [runMatching_eq]
    rw [show resolvedJobs envMatch (some [11, 10]) = [jBad, jGood] from rfl,
      show resolvedConsultants envMatch (some [20]) = [cOne] from rfl]
    unfold processJobs
    rw [matchJob_envMatch_bad]
  · rw [matchJob_envMatch_good]
  · rw [matchJob_envMatch_bad]

/-- Witness for `C3_failure_aborts_remaining`: `envMatch` with no prefix,
failing job `jBad` and `jGood` pending after it. -/
theorem C3_failure_aborts_remaining_witness :
    (processJobs envMatch [cOne] 2 10 ([] ++ jBad :: [jGood])).2 =
        .error .backendFailure ∧
      (processJobs envMatch [cOne] 2 10 ([] ++ jBad :: [jGood])).1 =
        (processJobs envMatch [cOne] 2 10 []).1 ++
          (matchJobToConsultants envMatch jBad [cOne] 2 10).1 :=
  C3_failure_aborts_remaining envMatch [cOne] 2 10 [] [jGood] jBad .backendFailure
    (by simp) (by rw [matchJob_envMatch_bad])

/-! ## Claim C10 -/

/-- Claim C10.  `run_matching` silently drops explicit job or consultant IDs
that do not resolve: the run over a list with unresolvable IDs equals the run
over the resolving subset (provided that subset is non-empty — an entirely
empty resolved list falls back to the defaults only when the *input* list is
empty, and otherwise yields the empty result), and a call whose explicit job
IDs all fail to resolve performs no writes and returns `[]`. -/
theorem C10_unresolved_ids_dropped (env : DbEnv) (job_ids consultant_ids : List Nat)
    (jopt copt : Option (List Nat)) (min_score : ℝ) (max_results : Nat) :
    (job_ids ≠ [] → (job_ids.map env.getJob).filterMap id = [] →
      runMatching env (some job_ids) copt min_score max_results = ([], .ok [])) ∧
    (job_ids.filter (fun i => (env.getJob i).isSome) ≠ [] →
      runMatching env (some job_ids) copt min_score max_results =
        runMatching env (some (job_ids.filter (fun i => (env.getJob i).isSome)))
          copt min_score max_results) ∧
    (consultant_ids.filter (fun i => (env.getConsultant i).isSome) ≠ [] →
      runMatching env jopt (some consultant_ids) min_score max_results =
        runMatching env jopt
          (some (consultant_ids.filter (fun i => (env.getConsultant i).isSome)))
          min_score max_results) := by
  refine ⟨?_, ?_, ?_⟩
  · intro hne hmap
    rw [runMatching_eq]
    have : resolvedJobs env (some job_ids) = [] := by
      obtain ⟨i, is, rfl⟩ := List.exists_cons_of_ne_nil hne
      exact hmap
    rw [this]
    rfl
  · intro hf
    rw [runMatching_eq, runMatching_eq, resolvedJobs_filter env job_ids hf]
  · intro hf
    rw [runMatching_eq, runMatching_eq, resolvedConsultants_filter env consultant_ids hf]

/-- Witness for `C10_unresolved_ids_dropped`: in `envMatch`, id 99 resolves to
nothing while 10 and 20 resolve. -/
theorem C10_unresolved_ids_dropped_witness :
    runMatching envMatch (some [99]) (some [20]) 2 10 = ([], .ok []) ∧
      runMatching envMatch (some [10, 99]) (some [20]) 2 10 =
        runMatching envMatch
          (some ([10, 99].filter (fun i => (envMatch.getJob i).isSome)))
          (some [20]) 2 10 ∧
      runMatching envMatch (some [10]) (some [20, 99]) 2 10 =
        runMatching envMatch (some [10])
          (some ([20, 99].filter (fun i => (envMatch.getConsultant i).isSome))) 2 10 :=
  ⟨(C10_unresolved_ids_dropped envMatch [99] [] none (some [20]) 2 10).1
      (by decide) rfl,
    (C10_unresolved_ids_dropped envMatch [10, 99] [] none (some [20]) 2 10).2.1
      (by decide),
    (C10_unresolved_ids_dropped envMatch [] [20, 99] (some [10]) none 2 10).2.2
      (by decide)⟩

end CAScan
